import Mathlib

/-!
# Polkadot inflation calculator: projection engine

A shallow embedding of `src/calculator.js`.

The file holds two embeddings of the projections.

In the first (`calculateModel1`, `calculateModel2`), JavaScript numbers are exact rationals
(`ℚ`): the arithmetic the source writes down, carried out without rounding.  A JavaScript
division whose divisor is zero yields `Infinity` or `NaN`; such a non-finite result is
embedded as `none` (see `jsDiv`).

In the second (`calculateModel1F`, `calculateModel2F`), JavaScript numbers are the finite
doubles, each a rational, and every operation rounds its exact result to binary64
(`round64`).  It carries the loop state and the record fields `year`, `yearlyIssuance`,
`totalSupply` and `totalSupplyFixed`.

Loop counters and the period parameters (results of `parseInt` on slider values) are
natural numbers in both.
-/

namespace Calculator

/-! ## Constants (calculator.js, lines 2-9) -/

def INITIAL_ISSUANCE : ℚ := 120000000
def INITIAL_SUPPLY : ℚ := 1450000000
def START_YEAR : ℕ := 2025
def END_YEAR : ℕ := 2052
def TREASURY_PERCENT : ℚ := 15 / 100
def STAKER_PERCENT : ℚ := 85 / 100
def INITIAL_USD_VALUE : ℚ := 480000000
def TARGET_USD_EXPENSES : ℚ := 90000000

/-! ## Data model -/

/-- The two trailing keys of a pushed record: `step, inflationPeriod` for the fixed model,
`reductionRate, period` for the target model. -/
inductive ParamEcho where
  | fixed (step : ℚ) (inflationPeriod : ℕ)
  | target (reductionRate : ℚ) (period : ℕ)
  deriving DecidableEq, Repr

/-- One object pushed onto `data` by `calculateModel1` / `calculateModel2`. -/
structure YearRecord where
  year : ℕ
  yearlyIssuance : ℚ
  totalSupply : ℚ
  totalSupplyFixed : ℚ
  yearlyTreasuryIncome : ℚ
  yearlyStakersIncome : ℚ
  mcToSustain : Option ℚ
  mcTo90M : Option ℚ
  inflationRate : Option ℚ
  stakingRate : Option ℚ
  params : ParamEcho
  deriving DecidableEq, Repr

/-- JavaScript `a / b` on finite numbers: a finite quotient when `b ≠ 0`, and a
non-finite value (`Infinity`, `-Infinity` or `NaN`), embedded as `none`, when `b = 0`. -/
def jsDiv (a b : ℚ) : Option ℚ :=
  if b = 0 then none else some (a / b)

/-- The values the loop variable `year` takes in
`for (let year = START_YEAR; year <= END_YEAR; year++)`, in order. -/
def years : List ℕ :=
  (List.range (END_YEAR + 1 - START_YEAR)).map (fun i => START_YEAR + i)

/-! ## Model 1: fixed step reduction (calculator.js, lines 78-133) -/

/-- The local variables of `calculateModel1`. -/
structure State1 where
  data : List YearRecord
  currentIssuance : ℚ
  totalSupply : ℚ
  totalSupplyFixed : ℚ
  yearsSinceStart : ℕ
  deriving DecidableEq, Repr

/-- The locals of `calculateModel1` before the loop (lines 79-83). -/
def init1 : State1 :=
  { data := []
    currentIssuance := INITIAL_ISSUANCE
    totalSupply := INITIAL_SUPPLY
    totalSupplyFixed := INITIAL_SUPPLY
    yearsSinceStart := 0 }

/-- The reduction check at the top of the loop body (lines 87-96): the value of
`currentIssuance` after it, in exact arithmetic (`reduce1F` is the same check in
doubles). -/
def reduce1 (reductionStep : ℚ) (inflationPeriod : ℕ) (yearsSinceStart : ℕ)
    (currentIssuance : ℚ) : ℚ :=
  if yearsSinceStart = 1 then
    currentIssuance * (1 - reductionStep / 100)
  else if yearsSinceStart > 1 then
    let yearsSinceFirstReduction := yearsSinceStart - 1
    if yearsSinceFirstReduction > 0 ∧ yearsSinceFirstReduction % inflationPeriod = 0 then
      currentIssuance * (1 - reductionStep / 100)
    else currentIssuance
  else currentIssuance

/-- The object pushed at lines 110-123, with the constants of lines 99-107 inlined:
`st` holds the locals at the top of the iteration and `currentIssuance` is the value
after the reduction check. -/
def record1 (reductionStep : ℚ) (inflationPeriod : ℕ) (st : State1) (year : ℕ)
    (currentIssuance : ℚ) : YearRecord :=
  let inflationRate := (jsDiv currentIssuance st.totalSupply).map (fun q => q * 100)
  let treasuryIncome := currentIssuance * TREASURY_PERCENT
  let stakersIncome := currentIssuance * STAKER_PERCENT
  let stakingRate :=
    (jsDiv (currentIssuance * STAKER_PERCENT) (st.totalSupply * (1 / 2))).map
      (fun q => q * 100)
  { year := year
    yearlyIssuance := currentIssuance
    totalSupply := st.totalSupply
    totalSupplyFixed := st.totalSupplyFixed
    yearlyTreasuryIncome := treasuryIncome
    yearlyStakersIncome := stakersIncome
    mcToSustain :=
      (jsDiv INITIAL_USD_VALUE currentIssuance).map (fun q => st.totalSupply * q)
    mcTo90M :=
      (jsDiv TARGET_USD_EXPENSES currentIssuance).map (fun q => st.totalSupply * q)
    inflationRate := inflationRate
    stakingRate := stakingRate
    params := ParamEcho.fixed reductionStep inflationPeriod }

/-- One iteration of the loop of `calculateModel1` (lines 85-130). -/
def body1 (reductionStep : ℚ) (inflationPeriod : ℕ) (st : State1) (year : ℕ) : State1 :=
  let currentIssuance :=
    reduce1 reductionStep inflationPeriod st.yearsSinceStart st.currentIssuance
  { data := st.data ++ [record1 reductionStep inflationPeriod st year currentIssuance]
    currentIssuance := currentIssuance
    totalSupply := st.totalSupply + currentIssuance
    totalSupplyFixed := st.totalSupplyFixed + INITIAL_ISSUANCE
    yearsSinceStart := st.yearsSinceStart + 1 }

/-- Model 1, `calculateModel1(reductionStep, inflationPeriod)`: the returned `data`. -/
def calculateModel1 (reductionStep : ℚ) (inflationPeriod : ℕ) : List YearRecord :=
  (years.foldl (body1 reductionStep inflationPeriod) init1).data

/-! ## Model 2: target supply (calculator.js, lines 136-209) -/

/-- The local variables of `calculateModel2` (`targetSupply` is the constant parameter). -/
structure State2 where
  data : List YearRecord
  totalSupply : ℚ
  totalSupplyFixed : ℚ
  yearsSincePeriod : ℕ
  currentYearlyIssuance : ℚ
  deriving DecidableEq, Repr

/-- The locals of `calculateModel2` before the loop (lines 137-141). -/
def init2 : State2 :=
  { data := []
    totalSupply := INITIAL_SUPPLY
    totalSupplyFixed := INITIAL_SUPPLY
    yearsSincePeriod := 0
    currentYearlyIssuance := INITIAL_ISSUANCE }

/-- Lines 148-157: the issuance for `year` before the overshoot check, in exact
arithmetic (`recompute2F` is the same in doubles).  The division
`periodIssuance / period` is the exact quotient; it is finite in JavaScript for
`period ≠ 0`. -/
def recompute2 (targetSupply reductionRate : ℚ) (period : ℕ) (st : State2) (year : ℕ) : ℚ :=
  if year = START_YEAR then INITIAL_ISSUANCE
  else if st.yearsSincePeriod = 0 then
    let remainingInflation := targetSupply - st.totalSupply
    let periodIssuance := remainingInflation * (reductionRate / 100)
    periodIssuance / (period : ℚ)
  else st.currentYearlyIssuance

/-- Lines 160-162: the overshoot clamp, in exact arithmetic (`clamp2F` is the same in
doubles). -/
def clamp2 (targetSupply totalSupply currentYearlyIssuance : ℚ) : ℚ :=
  if totalSupply + currentYearlyIssuance > targetSupply then
    max 0 (targetSupply - totalSupply)
  else currentYearlyIssuance

/-- Lines 200-205: the period counter after the iteration for `year`. -/
def advance2 (period : ℕ) (yearsSincePeriod : ℕ) (year : ℕ) : ℕ :=
  if year ≥ START_YEAR + 1 then
    if yearsSincePeriod + 1 ≥ period then 0 else yearsSincePeriod + 1
  else yearsSincePeriod

/-- The object pushed at lines 180-193, with the constants of lines 165-177 inlined:
`st` holds the locals at the top of the iteration and `currentYearlyIssuance` is the
value after the overshoot clamp. -/
def record2 (reductionRate : ℚ) (period : ℕ) (st : State2) (year : ℕ)
    (currentYearlyIssuance : ℚ) : YearRecord :=
  let inflationRate := (jsDiv currentYearlyIssuance st.totalSupply).map (fun q => q * 100)
  let treasuryIncome := currentYearlyIssuance * TREASURY_PERCENT
  let stakersIncome := currentYearlyIssuance * STAKER_PERCENT
  let stakingRate :=
    (jsDiv (currentYearlyIssuance * STAKER_PERCENT) (st.totalSupply * (1 / 2))).map
      (fun q => q * 100)
  let mcToSustain :=
    if currentYearlyIssuance > 0 then
      (jsDiv INITIAL_USD_VALUE currentYearlyIssuance).map (fun q => st.totalSupply * q)
    else some 0
  let mcTo90M :=
    if currentYearlyIssuance > 0 then
      (jsDiv TARGET_USD_EXPENSES currentYearlyIssuance).map (fun q => st.totalSupply * q)
    else some 0
  { year := year
    yearlyIssuance := currentYearlyIssuance
    totalSupply := st.totalSupply
    totalSupplyFixed := st.totalSupplyFixed
    yearlyTreasuryIncome := treasuryIncome
    yearlyStakersIncome := stakersIncome
    mcToSustain := mcToSustain
    mcTo90M := mcTo90M
    inflationRate := inflationRate
    stakingRate := stakingRate
    params := ParamEcho.target reductionRate period }

/-- One iteration of the loop of `calculateModel2` (lines 146-206). -/
def body2 (targetSupply reductionRate : ℚ) (period : ℕ) (st : State2) (year : ℕ) : State2 :=
  let currentYearlyIssuance :=
    clamp2 targetSupply st.totalSupply (recompute2 targetSupply reductionRate period st year)
  { data := st.data ++ [record2 reductionRate period st year currentYearlyIssuance]
    totalSupply := st.totalSupply + currentYearlyIssuance
    totalSupplyFixed := st.totalSupplyFixed + INITIAL_ISSUANCE
    yearsSincePeriod := advance2 period st.yearsSincePeriod year
    currentYearlyIssuance := currentYearlyIssuance }

/-- Model 2, `calculateModel2(targetMaxSupply, reductionRate, period)`: the returned
`data` (line 144 binds `targetSupply = targetMaxSupply`). -/
def calculateModel2 (targetMaxSupply reductionRate : ℚ) (period : ℕ) : List YearRecord :=
  let targetSupply := targetMaxSupply
  (years.foldl (body2 targetSupply reductionRate period) init2).data

/-! ## The loops, iteration by iteration -/

/-- The locals of `calculateModel1` after the first `n` iterations of its loop. -/
def run1 (reductionStep : ℚ) (inflationPeriod : ℕ) (n : ℕ) : State1 :=
  ((List.range n).map (fun i => START_YEAR + i)).foldl
    (body1 reductionStep inflationPeriod) init1

/-- The locals of `calculateModel2` after the first `n` iterations of its loop. -/
def run2 (targetSupply reductionRate : ℚ) (period : ℕ) (n : ℕ) : State2 :=
  ((List.range n).map (fun i => START_YEAR + i)).foldl
    (body2 targetSupply reductionRate period) init2

/-- The record pushed by iteration `i` of `calculateModel1`. -/
def pushed1 (s : ℚ) (p i : ℕ) : YearRecord :=
  record1 s p (run1 s p i) (START_YEAR + i)
    (reduce1 s p (run1 s p i).yearsSinceStart (run1 s p i).currentIssuance)

/-- The record pushed by iteration `i` of `calculateModel2`. -/
def pushed2 (T r : ℚ) (p i : ℕ) : YearRecord :=
  record2 r p (run2 T r p i) (START_YEAR + i)
    (clamp2 T (run2 T r p i).totalSupply (recompute2 T r p (run2 T r p i) (START_YEAR + i)))

/-- The number of reductions applied up to and including iteration `i`. -/
def reductions (p i : ℕ) : ℕ := if i = 0 then 0 else 1 + (i - 1) / p

/-- The number of years of the current period still to be issued at the carried
issuance, when the period counter reads `j`: none when a new period is about to start. -/
def remaining (p j : ℕ) : ℕ := if j = 0 then 0 else p - j

/-- Loop invariant of `calculateModel2` (from the second iteration on): the period counter
is below the period, the carried issuance is not negative, and issuing it for the rest
of the current period does not pass the target. -/
def Within (T : ℚ) (p : ℕ) (st : State2) : Prop :=
  st.yearsSincePeriod < p ∧ 0 ≤ st.currentYearlyIssuance ∧
    (remaining p st.yearsSincePeriod : ℚ) * st.currentYearlyIssuance ≤ T - st.totalSupply

/-- The issuance that the next recomputation will give is at most the carried one. -/
def Decaying (T r : ℚ) (p : ℕ) (st : State2) : Prop :=
  (T - st.totalSupply - (remaining p st.yearsSincePeriod : ℚ) * st.currentYearlyIssuance)
      * (r / 100) / (p : ℚ) ≤ st.currentYearlyIssuance

/-! ## The driver: `updateCalculations` (calculator.js, lines 469-514) and the input
helpers (lines 24-51) -/

/-- The value of the global `currentModel`: `'fixed'` or `'target'`. -/
inductive Model where
  | fixed
  | target
  deriving DecidableEq, Repr

/-- What `updateCalculations` reads from the document: the results of `parseInt` on the
four sliders and of `parseFloat` on the target-supply text field (`none` is `NaN`). -/
structure Inputs where
  reductionStep : ℚ
  inflationPeriod : ℕ
  targetSupply : Option ℚ
  reductionRate : ℚ
  targetPeriod : ℕ
  deriving DecidableEq, Repr

/-- The state `updateCalculations` writes: the globals `currentModel` and `currentData`,
whether `#targetSupplyError` is displayed, and whether the target-supply field carries
the class `invalid`.  The table and the chart, redrawn from `currentData` when the
function runs to its end, are not part of the embedding. -/
structure App where
  currentModel : Model
  currentData : List YearRecord
  errorDisplayed : Bool
  targetInvalid : Bool
  deriving DecidableEq, Repr

/-- JavaScript `x || 0` on a number: `NaN` (and `0`) give `0`. -/
def orZero : Option ℚ → ℚ
  | none => 0
  | some q => q

/-- Lines 47-51, `parseBillionsToValue(value)` for a finite number `value`, of which
`parseFloat` is the number itself. -/
def parseBillionsToValue (value : ℚ) : ℚ :=
  let billions := orZero (some value)
  billions * 1000000000

/-- Lines 469-514, `updateCalculations()`. -/
def updateCalculations (inp : Inputs) (app : App) : App :=
  match app.currentModel with
  | Model.fixed =>
    let reductionStep := inp.reductionStep
    let inflationPeriod := inp.inflationPeriod
    { app with currentData := calculateModel1 reductionStep inflationPeriod }
  | Model.target =>
    let targetSupplyBillions := orZero inp.targetSupply
    let targetSupply := parseBillionsToValue targetSupplyBillions
    let reductionRate := inp.reductionRate
    let period := inp.targetPeriod
    if targetSupplyBillions < 157 / 100 then
      { app with errorDisplayed := true, targetInvalid := true }
    else
      { app with
        errorDisplayed := false
        targetInvalid := false
        currentData := calculateModel2 targetSupply reductionRate period }

/-- JavaScript `str.split('.')` on a string given as its list of characters. -/
def splitDot : List Char → List (List Char)
  | [] => [[]]
  | c :: cs =>
    if c = '.' then [] :: splitDot cs
    else
      match splitDot cs with
      | [] => [[c]]
      | part :: parts => (c :: part) :: parts

/-- Lines 25-44, `formatNumberInput(value)`, on the characters of `value.toString()`. -/
def formatNumberInput (value : List Char) : List Char :=
  let cleanValue := value.filter (fun c => c.isDigit || c == '.')
  if cleanValue.isEmpty then []
  else
    let parts := splitDot cleanValue
    if parts.length > 2 then
      parts.headD [] ++ ['.'] ++ (parts.drop 1).flatten
    else
      let parts :=
        if parts.length = 2 ∧ (parts.getD 1 []).length > 3 then
          parts.set 1 ((parts.getD 1 []).take 3)
        else parts
      List.intercalate ['.'] parts

/-! ## Binary64 arithmetic

The double-precision arithmetic of the source, on rationals: every finite double is a
rational, and an operation returns the exact result rounded by `round64`. -/

/-- Two to the power `e`, as a rational. -/
def pow2 (e : ℤ) : ℚ :=
  if 0 ≤ e then ((2 ^ e.toNat : ℕ) : ℚ) else 1 / ((2 ^ (-e).toNat : ℕ) : ℚ)

/-- Helper of `ilog2`: halve `n` until it is below `2`, at most `fuel` times. -/
def ilog2Aux : ℕ → ℕ → ℕ
  | 0, _ => 0
  | fuel + 1, n => if n < 2 then 0 else ilog2Aux fuel (n / 2) + 1

/-- The position of the leading bit of `n` (`0` for `n ≤ 1`). -/
def ilog2 (n : ℕ) : ℕ := ilog2Aux n n

/-- The binade of a non-zero rational: the integer `e` with `2^e ≤ |x| < 2^(e+1)`. -/
def binade (x : ℚ) : ℤ :=
  let k : ℤ := (ilog2 x.num.natAbs : ℤ) - (ilog2 x.den : ℤ)
  if pow2 k ≤ |x| then k else k - 1

/-- Rounding of a rational to the nearest integer, ties to the even one. -/
def roundHalfEven (y : ℚ) : ℤ :=
  let f := ⌊y⌋
  let r := y - f
  if r < 1 / 2 then f
  else if 1 / 2 < r then f + 1
  else if f % 2 = 0 then f else f + 1

/-- IEEE 754 binary64 rounding (round to nearest, ties to even) of a real result `x`:
53 significant bits, gradual underflow below `2^-1022`.  Overflow to infinity (results of
magnitude `2^1024` and above) is not represented. -/
def round64 (x : ℚ) : ℚ :=
  if x = 0 then 0
  else
    let e := max (binade x) (-1022)
    let ulp := pow2 (e - 52)
    (roundHalfEven (x / ulp) : ℚ) * ulp

/-! ## The projections in binary64 arithmetic -/

/-- JavaScript `a + b` on finite doubles. -/
def fadd (a b : ℚ) : ℚ := round64 (a + b)

/-- JavaScript `a - b` on finite doubles. -/
def fsub (a b : ℚ) : ℚ := round64 (a - b)

/-- JavaScript `a * b` on finite doubles. -/
def fmul (a b : ℚ) : ℚ := round64 (a * b)

/-- JavaScript `a / b` on finite doubles, for `b ≠ 0`. -/
def fdiv (a b : ℚ) : ℚ := round64 (a / b)

/-- The fields of a pushed record that feed the loops: `year`, `yearlyIssuance`,
`totalSupply` and `totalSupplyFixed`, with the values the source's doubles take. -/
structure RecordF where
  year : ℕ
  yearlyIssuance : ℚ
  totalSupply : ℚ
  totalSupplyFixed : ℚ
  deriving DecidableEq, Repr

/-- The local variables of `calculateModel1`, in doubles. -/
structure State1F where
  data : List RecordF
  currentIssuance : ℚ
  totalSupply : ℚ
  totalSupplyFixed : ℚ
  yearsSinceStart : ℕ
  deriving DecidableEq, Repr

/-- Lines 79-83. -/
def init1F : State1F :=
  { data := []
    currentIssuance := INITIAL_ISSUANCE
    totalSupply := INITIAL_SUPPLY
    totalSupplyFixed := INITIAL_SUPPLY
    yearsSinceStart := 0 }

/-- Lines 87-96 in doubles: `currentIssuance * (1 - reductionStep / 100)` rounds the
quotient, the difference and the product in turn. -/
def reduce1F (reductionStep : ℚ) (inflationPeriod : ℕ) (yearsSinceStart : ℕ)
    (currentIssuance : ℚ) : ℚ :=
  if yearsSinceStart = 1 then
    fmul currentIssuance (fsub 1 (fdiv reductionStep 100))
  else if yearsSinceStart > 1 then
    let yearsSinceFirstReduction := yearsSinceStart - 1
    if yearsSinceFirstReduction > 0 ∧ yearsSinceFirstReduction % inflationPeriod = 0 then
      fmul currentIssuance (fsub 1 (fdiv reductionStep 100))
    else currentIssuance
  else currentIssuance

/-- One iteration of the loop of `calculateModel1` (lines 85-130), in doubles. -/
def body1F (reductionStep : ℚ) (inflationPeriod : ℕ) (st : State1F) (year : ℕ) : State1F :=
  let currentIssuance :=
    reduce1F reductionStep inflationPeriod st.yearsSinceStart st.currentIssuance
  { data := st.data ++
      [{ year := year
         yearlyIssuance := currentIssuance
         totalSupply := st.totalSupply
         totalSupplyFixed := st.totalSupplyFixed }]
    currentIssuance := currentIssuance
    totalSupply := fadd st.totalSupply currentIssuance
    totalSupplyFixed := fadd st.totalSupplyFixed INITIAL_ISSUANCE
    yearsSinceStart := st.yearsSinceStart + 1 }

/-- Model 1 in doubles: the `year`, `yearlyIssuance`, `totalSupply` and
`totalSupplyFixed` of the records returned by `calculateModel1`. -/
def calculateModel1F (reductionStep : ℚ) (inflationPeriod : ℕ) : List RecordF :=
  (years.foldl (body1F reductionStep inflationPeriod) init1F).data

/-- The local variables of `calculateModel2`, in doubles. -/
structure State2F where
  data : List RecordF
  totalSupply : ℚ
  totalSupplyFixed : ℚ
  yearsSincePeriod : ℕ
  currentYearlyIssuance : ℚ
  deriving DecidableEq, Repr

/-- Lines 137-141. -/
def init2F : State2F :=
  { data := []
    totalSupply := INITIAL_SUPPLY
    totalSupplyFixed := INITIAL_SUPPLY
    yearsSincePeriod := 0
    currentYearlyIssuance := INITIAL_ISSUANCE }

/-- Lines 148-157 in doubles: the difference, the quotient `reductionRate / 100`, the
product and the quotient by `period` are each rounded. -/
def recompute2F (targetSupply reductionRate : ℚ) (period : ℕ) (st : State2F) (year : ℕ) : ℚ :=
  if year = START_YEAR then INITIAL_ISSUANCE
  else if st.yearsSincePeriod = 0 then
    let remainingInflation := fsub targetSupply st.totalSupply
    let periodIssuance := fmul remainingInflation (fdiv reductionRate 100)
    fdiv periodIssuance (period : ℚ)
  else st.currentYearlyIssuance

/-- Line 160 in doubles: the overshoot test, on the rounded sum. -/
def overshoot2F (targetSupply totalSupply currentYearlyIssuance : ℚ) : Bool :=
  decide (fadd totalSupply currentYearlyIssuance > targetSupply)

/-- Lines 160-162 in doubles: the overshoot clamp. -/
def clamp2F (targetSupply totalSupply currentYearlyIssuance : ℚ) : ℚ :=
  if overshoot2F targetSupply totalSupply currentYearlyIssuance then
    max 0 (fsub targetSupply totalSupply)
  else currentYearlyIssuance

/-- One iteration of the loop of `calculateModel2` (lines 146-206), in doubles. -/
def body2F (targetSupply reductionRate : ℚ) (period : ℕ) (st : State2F) (year : ℕ) :
    State2F :=
  let currentYearlyIssuance :=
    clamp2F targetSupply st.totalSupply (recompute2F targetSupply reductionRate period st year)
  { data := st.data ++
      [{ year := year
         yearlyIssuance := currentYearlyIssuance
         totalSupply := st.totalSupply
         totalSupplyFixed := st.totalSupplyFixed }]
    totalSupply := fadd st.totalSupply currentYearlyIssuance
    totalSupplyFixed := fadd st.totalSupplyFixed INITIAL_ISSUANCE
    yearsSincePeriod := advance2 period st.yearsSincePeriod year
    currentYearlyIssuance := currentYearlyIssuance }

/-- Model 2 in doubles: the `year`, `yearlyIssuance`, `totalSupply` and
`totalSupplyFixed` of the records returned by `calculateModel2`. -/
def calculateModel2F (targetMaxSupply reductionRate : ℚ) (period : ℕ) : List RecordF :=
  let targetSupply := targetMaxSupply
  (years.foldl (body2F targetSupply reductionRate period) init2F).data

/-- The locals of `calculateModel1`, in doubles, after the first `n` iterations. -/
def run1F (reductionStep : ℚ) (inflationPeriod : ℕ) (n : ℕ) : State1F :=
  ((List.range n).map (fun i => START_YEAR + i)).foldl
    (body1F reductionStep inflationPeriod) init1F

/-- The locals of `calculateModel2`, in doubles, after the first `n` iterations. -/
def run2F (targetSupply reductionRate : ℚ) (period : ℕ) (n : ℕ) : State2F :=
  ((List.range n).map (fun i => START_YEAR + i)).foldl
    (body2F targetSupply reductionRate period) init2F

/-- The record pushed by iteration `i` of `calculateModel1`, in doubles. -/
def pushed1F (s : ℚ) (p i : ℕ) : RecordF :=
  { year := START_YEAR + i
    yearlyIssuance :=
      reduce1F s p (run1F s p i).yearsSinceStart (run1F s p i).currentIssuance
    totalSupply := (run1F s p i).totalSupply
    totalSupplyFixed := (run1F s p i).totalSupplyFixed }

/-! ## Lemmas about the loops -/

theorem run1_zero (s : ℚ) (p : ℕ) : run1 s p 0 = init1 := rfl

theorem run1_succ (s : ℚ) (p n : ℕ) :
    run1 s p (n + 1) = body1 s p (run1 s p n) (START_YEAR + n) := by
  simp [run1, List.range_succ, List.foldl_append]

theorem run2_zero (T r : ℚ) (p : ℕ) : run2 T r p 0 = init2 := rfl

theorem run2_succ (T r : ℚ) (p n : ℕ) :
    run2 T r p (n + 1) = body2 T r p (run2 T r p n) (START_YEAR + n) := by
  simp [run2, List.range_succ, List.foldl_append]

theorem calculateModel1_eq_run1 (s : ℚ) (p : ℕ) :
    calculateModel1 s p = (run1 s p 28).data := rfl

theorem calculateModel2_eq_run2 (T r : ℚ) (p : ℕ) :
    calculateModel2 T r p = (run2 T r p 28).data := rfl

theorem run1_data (s : ℚ) (p n : ℕ) :
    (run1 s p n).data = (List.range n).map (pushed1 s p) := by
  induction n with
  | zero => rfl
  | succ n ih => rw [run1_succ, List.range_succ, List.map_append, ← ih]; rfl

theorem run2_data (T r : ℚ) (p n : ℕ) :
    (run2 T r p n).data = (List.range n).map (pushed2 T r p) := by
  induction n with
  | zero => rfl
  | succ n ih => rw [run2_succ, List.range_succ, List.map_append, ← ih]; rfl

theorem calculateModel1_getElem? (s : ℚ) (p i : ℕ) (hi : i < 28) :
    (calculateModel1 s p)[i]? = some (pushed1 s p i) := by
  rw [calculateModel1_eq_run1, run1_data]
  simp [List.getElem?_map, List.getElem?_range hi]

theorem calculateModel2_getElem? (T r : ℚ) (p i : ℕ) (hi : i < 28) :
    (calculateModel2 T r p)[i]? = some (pushed2 T r p i) := by
  rw [calculateModel2_eq_run2, run2_data]
  simp [List.getElem?_map, List.getElem?_range hi]

theorem run1_yearsSinceStart (s : ℚ) (p n : ℕ) : (run1 s p n).yearsSinceStart = n := by
  induction n with
  | zero => rfl
  | succ n ih => rw [run1_succ]; simp [body1, ih]

theorem run1_currentIssuance_succ (s : ℚ) (p n : ℕ) :
    (run1 s p (n + 1)).currentIssuance = (pushed1 s p n).yearlyIssuance := by
  rw [run1_succ]; rfl

theorem run1_totalSupply_succ (s : ℚ) (p n : ℕ) :
    (run1 s p (n + 1)).totalSupply =
      (pushed1 s p n).totalSupply + (pushed1 s p n).yearlyIssuance := by
  rw [run1_succ]; rfl

theorem pushed1_year (s : ℚ) (p i : ℕ) : (pushed1 s p i).year = START_YEAR + i := rfl

theorem pushed2_year (T r : ℚ) (p i : ℕ) : (pushed2 T r p i).year = START_YEAR + i := rfl

theorem pushed1_totalSupply (s : ℚ) (p i : ℕ) :
    (pushed1 s p i).totalSupply = (run1 s p i).totalSupply := rfl

theorem pushed1_yearlyIssuance (s : ℚ) (p i : ℕ) :
    (pushed1 s p i).yearlyIssuance = reduce1 s p i (run1 s p i).currentIssuance := by
  simp [pushed1, record1, run1_yearsSinceStart]

/-- The issuance of the record pushed by iteration `n + 1`, from that of iteration `n`. -/
theorem pushed1_yearlyIssuance_succ (s : ℚ) (p n : ℕ) :
    (pushed1 s p (n + 1)).yearlyIssuance =
      if n = 0 ∨ p ∣ n then (pushed1 s p n).yearlyIssuance * (1 - s / 100)
      else (pushed1 s p n).yearlyIssuance := by
  rw [pushed1_yearlyIssuance s p (n + 1), run1_currentIssuance_succ]
  unfold reduce1
  rcases Nat.eq_zero_or_pos n with h0 | hpos
  · subst h0; simp
  · have h1 : ¬ (n + 1 = 1) := by omega
    have h2 : n + 1 > 1 := by omega
    have h3 : ¬ (n = 0) := by omega
    simp only [h1, h2, h3, if_false, if_true, Nat.add_sub_cancel, false_or,
      Nat.dvd_iff_mod_eq_zero, hpos, true_and, gt_iff_lt]

theorem reductions_succ (p n : ℕ) :
    reductions p (n + 1) = reductions p n + if n = 0 ∨ p ∣ n then 1 else 0 := by
  unfold reductions
  rcases Nat.eq_zero_or_pos n with h0 | hpos
  · subst h0; simp
  · obtain ⟨m, rfl⟩ : ∃ m, n = m + 1 := ⟨n - 1, by omega⟩
    have h := Nat.succ_div m p
    simp only [Nat.succ_eq_add_one] at h
    simp only [Nat.add_sub_cancel, Nat.succ_ne_zero, if_false, false_or, h]
    split_ifs <;> omega

theorem pushed1_yearlyIssuance_closed (s : ℚ) (p i : ℕ) :
    (pushed1 s p i).yearlyIssuance = INITIAL_ISSUANCE * (1 - s / 100) ^ reductions p i := by
  induction i with
  | zero => simp [pushed1_yearlyIssuance, run1_zero, init1, reduce1, reductions]
  | succ n ih =>
    rw [pushed1_yearlyIssuance_succ, reductions_succ p n, ih]
    split_ifs
    · rw [pow_succ]; ring
    · simp

theorem run1_totalSupply_eq_sum (s : ℚ) (p n : ℕ) :
    (run1 s p n).totalSupply =
      INITIAL_SUPPLY + ((run1 s p n).data.map YearRecord.yearlyIssuance).sum := by
  induction n with
  | zero => simp [run1_zero, init1]
  | succ n ih =>
    rw [run1_totalSupply_succ, pushed1_totalSupply, ih, run1_data s p (n + 1),
      List.range_succ, List.map_append, List.map_append, List.sum_append, ← run1_data]
    simp; ring

theorem reduce1_zero_step (p k : ℕ) (c : ℚ) : reduce1 0 p k c = c := by
  unfold reduce1; simp

theorem run1_zero_step (p n : ℕ) :
    (run1 0 p n).currentIssuance = INITIAL_ISSUANCE ∧
    (run1 0 p n).totalSupply = INITIAL_SUPPLY + INITIAL_ISSUANCE * n ∧
    (run1 0 p n).totalSupplyFixed = INITIAL_SUPPLY + INITIAL_ISSUANCE * n := by
  induction n with
  | zero => simp [run1_zero, init1]
  | succ n ih =>
    obtain ⟨h1, h2, h3⟩ := ih
    rw [run1_succ]
    simp only [body1, reduce1_zero_step, h1, h2, h3]
    push_cast
    refine ⟨trivial, ?_, ?_⟩ <;> ring

theorem run2_totalSupply_succ (T r : ℚ) (p n : ℕ) :
    (run2 T r p (n + 1)).totalSupply =
      (pushed2 T r p n).totalSupply + (pushed2 T r p n).yearlyIssuance := by
  rw [run2_succ]; rfl

theorem run2_currentYearlyIssuance_succ (T r : ℚ) (p n : ℕ) :
    (run2 T r p (n + 1)).currentYearlyIssuance = (pushed2 T r p n).yearlyIssuance := by
  rw [run2_succ]; rfl

theorem pushed2_totalSupply (T r : ℚ) (p i : ℕ) :
    (pushed2 T r p i).totalSupply = (run2 T r p i).totalSupply := rfl

theorem pushed2_yearlyIssuance (T r : ℚ) (p i : ℕ) :
    (pushed2 T r p i).yearlyIssuance =
      clamp2 T (run2 T r p i).totalSupply (recompute2 T r p (run2 T r p i) (START_YEAR + i)) :=
  rfl

theorem clamp2_nonneg (T S x : ℚ) (hx : 0 ≤ x) : 0 ≤ clamp2 T S x := by
  unfold clamp2; split_ifs
  · exact le_max_left _ _
  · exact hx

theorem clamp2_le (T S x : ℚ) (hS : S ≤ T) : S + clamp2 T S x ≤ T := by
  unfold clamp2; split_ifs with h
  · rw [max_eq_right (by linarith)]; linarith
  · linarith

theorem recompute2_nonneg (T r : ℚ) (p : ℕ) (st : State2) (year : ℕ) (hr : 0 ≤ r)
    (hS : st.totalSupply ≤ T) (hx : 0 ≤ st.currentYearlyIssuance) :
    0 ≤ recompute2 T r p st year := by
  unfold recompute2; split_ifs
  · norm_num [INITIAL_ISSUANCE]
  · have h1 : 0 ≤ T - st.totalSupply := by linarith
    have h2 : 0 ≤ r / 100 := div_nonneg hr (by norm_num)
    exact div_nonneg (mul_nonneg h1 h2) (Nat.cast_nonneg p)
  · exact hx

/-- Loop invariant of `calculateModel2`: the supply stays at or below the target and the
issuance carried between iterations is never negative. -/
theorem run2_bounds (T r : ℚ) (p : ℕ) (hT : INITIAL_SUPPLY ≤ T) (hr : 0 ≤ r) (n : ℕ) :
    (run2 T r p n).totalSupply ≤ T ∧ 0 ≤ (run2 T r p n).currentYearlyIssuance := by
  induction n with
  | zero => exact ⟨hT, by norm_num [run2_zero, init2, INITIAL_ISSUANCE]⟩
  | succ n ih =>
    obtain ⟨h1, h2⟩ := ih
    rw [run2_totalSupply_succ, run2_currentYearlyIssuance_succ, pushed2_totalSupply,
      pushed2_yearlyIssuance]
    exact ⟨clamp2_le _ _ _ h1, clamp2_nonneg _ _ _ (recompute2_nonneg _ _ _ _ _ hr h1 h2)⟩

/-- One iteration of `calculateModel2` after the start year, from a state within the
target: the clamp leaves the issuance as recomputed, the invariant is kept, and the
issuance does not grow once `Decaying` holds. -/
theorem body2_within (T r : ℚ) (p : ℕ) (st : State2) (year : ℕ) (hp : 1 ≤ p)
    (hr0 : 0 ≤ r) (hr1 : r ≤ 100) (hy : START_YEAR + 1 ≤ year) (hw : Within T p st)
    (hd : st.yearsSincePeriod ≠ 0 → Decaying T r p st) :
    clamp2 T st.totalSupply (recompute2 T r p st year) = recompute2 T r p st year ∧
    Within T p (body2 T r p st year) ∧ Decaying T r p (body2 T r p st year) ∧
    (Decaying T r p st → recompute2 T r p st year ≤ st.currentYearlyIssuance) := by
  obtain ⟨data, S, SF, j, x⟩ := st
  simp only [Within, Decaying] at hw hd ⊢
  obtain ⟨hj, hx, hmx⟩ := hw
  have hyne : ¬ (year = START_YEAR) := by omega
  have hyge : year ≥ START_YEAR + 1 := hy
  have hρ0 : 0 ≤ r / 100 := div_nonneg hr0 (by norm_num)
  have hρ1 : r / 100 ≤ 1 := by rw [div_le_one (by norm_num)]; exact hr1
  have hpq : (1 : ℚ) ≤ p := by exact_mod_cast hp
  have hp0 : (0 : ℚ) < p := by linarith
  by_cases hj0 : j = 0
  · subst hj0
    have hH : 0 ≤ T - S := by simpa [remaining] using hmx
    have hrec : recompute2 T r p ⟨data, S, SF, 0, x⟩ year = (T - S) * (r / 100) / p := by
      simp [recompute2, hyne]
    have hx0 : 0 ≤ (T - S) * (r / 100) / p := div_nonneg (mul_nonneg hH hρ0) hp0.le
    have hpx : (p : ℚ) * ((T - S) * (r / 100) / p) = (T - S) * (r / 100) := by
      field_simp; ring
    have hle : (T - S) * (r / 100) ≤ T - S := by nlinarith
    have hxle : (T - S) * (r / 100) / p ≤ T - S := by
      rw [div_le_iff₀ hp0]; nlinarith
    have hcl : clamp2 T S ((T - S) * (r / 100) / p) = (T - S) * (r / 100) / p := by
      unfold clamp2; rw [if_neg]; linarith
    have hrem : ((remaining p (advance2 p 0 year) : ℕ) : ℚ) = (p : ℚ) - 1 := by
      unfold advance2 remaining
      rw [if_pos hyge]
      by_cases h1 : 0 + 1 ≥ p
      · have : p = 1 := by omega
        subst this; simp
      · rw [if_neg h1]
        have : 1 ≤ p := hp
        simp [Nat.cast_sub this]
    have hadv : advance2 p 0 year < p := by
      unfold advance2; rw [if_pos hyge]; split_ifs <;> omega
    rw [hrec, hcl]
    simp only [body2, hrec, hcl, hrem]
    refine ⟨trivial, ⟨hadv, hx0, ?_⟩, ?_, ?_⟩
    · nlinarith
    · rw [div_le_div_iff_of_pos_right hp0]
      have : T - (S + (T - S) * (r / 100) / ↑p) - (↑p - 1) * ((T - S) * (r / 100) / ↑p)
          = (T - S) * (1 - r / 100) := by
        field_simp; ring
      rw [this]
      nlinarith [mul_nonneg hH hρ0, mul_nonneg (mul_nonneg hH hρ0) hρ0]
    · intro hdec
      simpa [remaining] using hdec
  · have hd := hd hj0
    have hjpos : 0 < j := Nat.pos_of_ne_zero hj0
    have hremj : ((remaining p j : ℕ) : ℚ) = (p : ℚ) - j := by
      unfold remaining; rw [if_neg hj0]; exact Nat.cast_sub hj.le
    have hjq : (j : ℚ) + 1 ≤ p := by exact_mod_cast hj
    rw [hremj] at hmx hd
    have hrec : recompute2 T r p ⟨data, S, SF, j, x⟩ year = x := by
      simp [recompute2, hyne, hj0]
    have hxH : x ≤ T - S := by nlinarith
    have hcl : clamp2 T S x = x := by
      unfold clamp2; rw [if_neg]; linarith
    have hrem : ((remaining p (advance2 p j year) : ℕ) : ℚ) = (p : ℚ) - j - 1 := by
      unfold advance2 remaining
      rw [if_pos hyge]
      by_cases h1 : j + 1 ≥ p
      · have : p = j + 1 := by omega
        subst this; simp
      · rw [if_neg h1, if_neg (by omega)]
        have : j + 1 ≤ p := by omega
        rw [Nat.cast_sub this]; push_cast; ring
    have hadv : advance2 p j year < p := by
      unfold advance2; rw [if_pos hyge]; split_ifs <;> omega
    rw [hrec, hcl]
    simp only [body2, hrec, hcl, hrem]
    refine ⟨trivial, ⟨hadv, hx, ?_⟩, ?_, ?_⟩
    · nlinarith
    · have : T - (S + x) - (↑p - ↑j - 1) * x = T - S - (↑p - ↑j) * x := by ring
      rw [this]; exact hd
    · intro _; exact le_refl x

/-- The locals of `calculateModel2` after the iteration for 2025, when the target is at
least `1570000000`: the full initial issuance has been added and no period has begun. -/
theorem run2_one (T r : ℚ) (p : ℕ) (hT : 1570000000 ≤ T) :
    (run2 T r p 1).totalSupply = 1570000000 ∧ (run2 T r p 1).yearsSincePeriod = 0 ∧
      (run2 T r p 1).currentYearlyIssuance = 120000000 := by
  have hcl : clamp2 T 1450000000 120000000 = 120000000 := by
    unfold clamp2; rw [if_neg]; norm_num; linarith
  rw [run2_succ, run2_zero]
  simp only [body2, recompute2, init2, INITIAL_SUPPLY, INITIAL_ISSUANCE, advance2,
    Nat.add_zero, if_true, hcl]
  refine ⟨by norm_num, by simp, trivial⟩

theorem pushed2_zero_yearlyIssuance (T r : ℚ) (p : ℕ) (hT : 1570000000 ≤ T) :
    (pushed2 T r p 0).yearlyIssuance = 120000000 := by
  rw [← run2_currentYearlyIssuance_succ]; exact (run2_one T r p hT).2.2

/-- From the second iteration on, `calculateModel2` with a target of at least
`1570000000` and a rate between `0` and `100` stays within the target, and from the third
on its recomputed issuance cannot exceed the carried one. -/
theorem run2_within (T r : ℚ) (p : ℕ) (hT : 1570000000 ≤ T) (hr0 : 0 ≤ r) (hr1 : r ≤ 100)
    (hp : 1 ≤ p) (n : ℕ) :
    Within T p (run2 T r p (n + 1)) ∧
      ((run2 T r p (n + 1)).yearsSincePeriod ≠ 0 ∨ 1 ≤ n →
        Decaying T r p (run2 T r p (n + 1))) := by
  induction n with
  | zero =>
    obtain ⟨h1, h2, h3⟩ := run2_one T r p hT
    refine ⟨⟨by rw [h2]; exact hp, by rw [h3]; norm_num, ?_⟩, ?_⟩
    · rw [h2, h1]; simp [remaining]; linarith
    · rintro (h | h)
      · exact absurd h2 h
      · omega
  | succ n ih =>
    obtain ⟨hw, hd⟩ := ih
    have hy : START_YEAR + 1 ≤ START_YEAR + (n + 1) := by omega
    obtain ⟨_, hw', hd', _⟩ := body2_within T r p (run2 T r p (n + 1)) (START_YEAR + (n + 1))
      hp hr0 hr1 hy hw (fun h => hd (Or.inl h))
    rw [run2_succ T r p (n + 1)]
    exact ⟨hw', fun _ => hd'⟩

/-- From the 2026 record on, the overshoot clamp of `calculateModel2` leaves the issuance
as recomputed (target at least `1570000000`, rate between `0` and `100`). -/
theorem pushed2_yearlyIssuance_unclamped (T r : ℚ) (p : ℕ) (hT : 1570000000 ≤ T)
    (hr0 : 0 ≤ r) (hr1 : r ≤ 100) (hp : 1 ≤ p) (n : ℕ) :
    (pushed2 T r p (n + 1)).yearlyIssuance =
      recompute2 T r p (run2 T r p (n + 1)) (START_YEAR + (n + 1)) := by
  obtain ⟨hw, hd⟩ := run2_within T r p hT hr0 hr1 hp n
  have hy : START_YEAR + 1 ≤ START_YEAR + (n + 1) := by omega
  obtain ⟨hcl, _, _, _⟩ := body2_within T r p (run2 T r p (n + 1)) (START_YEAR + (n + 1))
    hp hr0 hr1 hy hw (fun h => hd (Or.inl h))
  rw [pushed2_yearlyIssuance, hcl]

/-- From the 2026 record on, the issuance of `calculateModel2` never grows from one record
to the next (target at least `1570000000`, rate between `0` and `100`). -/
theorem pushed2_yearlyIssuance_antitone (T r : ℚ) (p : ℕ) (hT : 1570000000 ≤ T)
    (hr0 : 0 ≤ r) (hr1 : r ≤ 100) (hp : 1 ≤ p) (i : ℕ) (hi : 1 ≤ i) :
    (pushed2 T r p (i + 1)).yearlyIssuance ≤ (pushed2 T r p i).yearlyIssuance := by
  obtain ⟨hw, hd⟩ := run2_within T r p hT hr0 hr1 hp i
  have hy : START_YEAR + 1 ≤ START_YEAR + (i + 1) := by omega
  obtain ⟨hcl, _, _, hle⟩ := body2_within T r p (run2 T r p (i + 1)) (START_YEAR + (i + 1))
    hp hr0 hr1 hy hw (fun h => hd (Or.inl h))
  rw [pushed2_yearlyIssuance T r p (i + 1), hcl, ← run2_currentYearlyIssuance_succ]
  exact hle (hd (Or.inr hi))

theorem reductions_pos (p i : ℕ) (hi : 1 ≤ i) : 1 ≤ reductions p i := by
  unfold reductions; rw [if_neg (by omega)]; exact Nat.le_add_right 1 _

/-- With a reduction step of `100`, every record of `calculateModel1` after the first has
zero issuance. -/
theorem pushed1_yearlyIssuance_step_100 (p i : ℕ) (hi : 1 ≤ i) :
    (pushed1 100 p i).yearlyIssuance = 0 := by
  rw [pushed1_yearlyIssuance_closed]
  have h : (1 : ℚ) - 100 / 100 = 0 := by norm_num
  rw [h, zero_pow (by have := reductions_pos p i hi; omega), mul_zero]

theorem pushed1_mcToSustain (s : ℚ) (p i : ℕ) :
    (pushed1 s p i).mcToSustain =
      (jsDiv INITIAL_USD_VALUE (pushed1 s p i).yearlyIssuance).map
        (fun q => (pushed1 s p i).totalSupply * q) := rfl

theorem pushed1_mcTo90M (s : ℚ) (p i : ℕ) :
    (pushed1 s p i).mcTo90M =
      (jsDiv TARGET_USD_EXPENSES (pushed1 s p i).yearlyIssuance).map
        (fun q => (pushed1 s p i).totalSupply * q) := rfl

/-- With a reduction step below `100`, every issuance of `calculateModel1` is positive. -/
theorem pushed1_yearlyIssuance_pos (s : ℚ) (p i : ℕ) (hs : s < 100) :
    0 < (pushed1 s p i).yearlyIssuance := by
  rw [pushed1_yearlyIssuance_closed, INITIAL_ISSUANCE]
  have h : (0 : ℚ) < 1 - s / 100 := by
    have : s / 100 < 1 := by rw [div_lt_one (by norm_num)]; exact hs
    linarith
  exact mul_pos (by norm_num) (pow_pos h _)

/-- With a reduction step below `100`, the supply of `calculateModel1` never falls below
the initial supply. -/
theorem run1_totalSupply_ge (s : ℚ) (p : ℕ) (hs : s < 100) (n : ℕ) :
    INITIAL_SUPPLY ≤ (run1 s p n).totalSupply := by
  induction n with
  | zero => exact le_refl _
  | succ n ih =>
    rw [run1_totalSupply_succ, pushed1_totalSupply]
    have := pushed1_yearlyIssuance_pos s p n hs
    linarith

theorem pushed1_inflationRate (s : ℚ) (p i : ℕ) :
    (pushed1 s p i).inflationRate =
      (jsDiv (pushed1 s p i).yearlyIssuance (pushed1 s p i).totalSupply).map
        (fun q => q * 100) := rfl

theorem pushed1_stakingRate (s : ℚ) (p i : ℕ) :
    (pushed1 s p i).stakingRate =
      (jsDiv ((pushed1 s p i).yearlyIssuance * STAKER_PERCENT)
        ((pushed1 s p i).totalSupply * (1 / 2))).map (fun q => q * 100) := rfl

theorem jsDiv_of_ne_zero (a b : ℚ) (hb : b ≠ 0) : jsDiv a b = some (a / b) := by
  unfold jsDiv; rw [if_neg hb]

/-- In the iteration for 2025 the overshoot test of `calculateModel2` does not fire when
the target is at least `1570000000`. -/
theorem run2_zero_no_overshoot (T r : ℚ) (p : ℕ) (hT : 1570000000 ≤ T) :
    (run2 T r p 0).totalSupply + recompute2 T r p (run2 T r p 0) (START_YEAR + 0) ≤ T ∧
      (pushed2 T r p 0).yearlyIssuance =
        recompute2 T r p (run2 T r p 0) (START_YEAR + 0) := by
  have hrec : recompute2 T r p (run2 T r p 0) (START_YEAR + 0) = 120000000 := by
    simp [recompute2, INITIAL_ISSUANCE]
  rw [hrec, pushed2_zero_yearlyIssuance T r p hT]
  refine ⟨?_, rfl⟩
  rw [run2_zero]
  simp only [init2, INITIAL_SUPPLY]
  linarith

/-- From the iteration for 2026 on, supply plus recomputed issuance stays at or below the
target (target at least `1570000000`, rate between `0` and `100`). -/
theorem run2_succ_no_overshoot (T r : ℚ) (p : ℕ) (hT : 1570000000 ≤ T) (hr0 : 0 ≤ r)
    (hr1 : r ≤ 100) (hp : 1 ≤ p) (n : ℕ) :
    (run2 T r p (n + 1)).totalSupply +
      recompute2 T r p (run2 T r p (n + 1)) (START_YEAR + (n + 1)) ≤ T := by
  obtain ⟨⟨_, hx, hmx⟩, _⟩ := run2_within T r p hT hr0 hr1 hp (n + 1)
  have hS : (run2 T r p (n + 1 + 1)).totalSupply =
      (run2 T r p (n + 1)).totalSupply +
        recompute2 T r p (run2 T r p (n + 1)) (START_YEAR + (n + 1)) := by
    rw [run2_totalSupply_succ, pushed2_totalSupply,
      pushed2_yearlyIssuance_unclamped T r p hT hr0 hr1 hp n]
  have hm : (0 : ℚ) ≤ (remaining p (run2 T r p (n + 1 + 1)).yearsSincePeriod : ℚ) :=
    Nat.cast_nonneg _
  have := mul_nonneg hm hx
  rw [← hS]
  linarith

theorem run2_yearsSincePeriod_succ (T r : ℚ) (p n : ℕ) :
    (run2 T r p (n + 1)).yearsSincePeriod =
      advance2 p (run2 T r p n).yearsSincePeriod (START_YEAR + n) := by
  rw [run2_succ]; rfl

/-- Quotient and remainder of `k + 1` by `p`, from those of `k`. -/
theorem succ_div_mod (p k : ℕ) (hp : 1 ≤ p) :
    (k % p + 1 < p → (k + 1) / p = k / p ∧ (k + 1) % p = k % p + 1) ∧
    (¬ (k % p + 1 < p) → (k + 1) / p = k / p + 1 ∧ (k + 1) % p = 0) := by
  have hlt : k % p < p := Nat.mod_lt k hp
  have hk : k + 1 = p * (k / p) + (k % p + 1) := by
    have := Nat.div_add_mod k p; omega
  constructor
  · intro h
    rw [hk, Nat.mul_add_div hp, Nat.mul_add_mod, Nat.div_eq_of_lt h, Nat.mod_eq_of_lt h]
    simp
  · intro h
    have he : k % p + 1 = p := by omega
    rw [hk, he, Nat.mul_add_div hp, Nat.mul_add_mod, Nat.div_self hp, Nat.mod_self]
    simp

/-- The locals of `calculateModel2` at the top of the iteration with index `k + 1`, for a
target of at least `1570000000` and a rate between `0` and `100`: the period counter is
`k mod p`, the headroom is the initial headroom `T - 1570000000` reduced by the factor
`1 - r/100` once per completed period and by the issuance of the years already spent in
the current period, and inside a period the carried issuance is that period's. -/
theorem run2_period_state (T r : ℚ) (p : ℕ) (hT : 1570000000 ≤ T) (hr0 : 0 ≤ r)
    (hr1 : r ≤ 100) (hp : 1 ≤ p) (k : ℕ) :
    (run2 T r p (k + 1)).yearsSincePeriod = k % p ∧
    T - (run2 T r p (k + 1)).totalSupply =
      (T - 1570000000) * (1 - r / 100) ^ (k / p) * (1 - ((k % p : ℕ) : ℚ) * (r / 100) / p) ∧
    recompute2 T r p (run2 T r p (k + 1)) (START_YEAR + (k + 1)) =
      (T - 1570000000) * (1 - r / 100) ^ (k / p) * (r / 100) / p := by
  have hpq : (0 : ℚ) < p := by exact_mod_cast hp
  have hyne : ∀ n : ℕ, ¬ (START_YEAR + (n + 1) = START_YEAR) := by intro n; omega
  induction k with
  | zero =>
    obtain ⟨h1, h2, _⟩ := run2_one T r p hT
    refine ⟨by rw [h2]; simp, by rw [h1]; simp, ?_⟩
    simp only [recompute2, hyne 0, h2, h1, if_false, if_true]
    simp
  | succ k ih =>
    obtain ⟨hj, hH, hx⟩ := ih
    have hS : T - (run2 T r p (k + 1 + 1)).totalSupply =
        T - (run2 T r p (k + 1)).totalSupply
          - (T - 1570000000) * (1 - r / 100) ^ (k / p) * (r / 100) / p := by
      rw [run2_totalSupply_succ, pushed2_totalSupply,
        pushed2_yearlyIssuance_unclamped T r p hT hr0 hr1 hp k, hx]
      ring
    have hc : (run2 T r p (k + 1 + 1)).currentYearlyIssuance =
        (T - 1570000000) * (1 - r / 100) ^ (k / p) * (r / 100) / p := by
      rw [run2_currentYearlyIssuance_succ,
        pushed2_yearlyIssuance_unclamped T r p hT hr0 hr1 hp k, hx]
    have hadv : (run2 T r p (k + 1 + 1)).yearsSincePeriod =
        if k % p + 1 ≥ p then 0 else k % p + 1 := by
      rw [run2_yearsSincePeriod_succ, hj]
      unfold advance2
      rw [if_pos (by omega)]
    obtain ⟨hin, hwrap⟩ := succ_div_mod p k hp
    by_cases hlt : k % p + 1 < p
    · obtain ⟨hd, hm⟩ := hin hlt
      have hj' : (run2 T r p (k + 1 + 1)).yearsSincePeriod = k % p + 1 := by
        rw [hadv, if_neg (by omega)]
      refine ⟨by rw [hj', hm], ?_, ?_⟩
      · rw [hS, hH, hd, hm]; push_cast; field_simp; ring
      · simp only [recompute2, hyne (k + 1), hj', if_false, Nat.succ_ne_zero, hc, hd]
    · obtain ⟨hd, hm⟩ := hwrap hlt
      have he : k % p + 1 = p := by
        have := Nat.mod_lt k hp; omega
      have hcast : ((k % p : ℕ) : ℚ) = (p : ℚ) - 1 := by
        have : ((k % p + 1 : ℕ) : ℚ) = (p : ℚ) := by rw [he]
        push_cast at this; linarith
      have hj' : (run2 T r p (k + 1 + 1)).yearsSincePeriod = 0 := by
        rw [hadv, if_pos (by omega)]
      have hH' : T - (run2 T r p (k + 1 + 1)).totalSupply =
          (T - 1570000000) * (1 - r / 100) ^ (k / p + 1) := by
        rw [hS, hH, hcast, pow_succ]; field_simp; ring
      refine ⟨by rw [hj', hm], ?_, ?_⟩
      · rw [hH', hd, hm]; simp
      · simp only [recompute2, hyne (k + 1), hj', if_false, if_true, hd]
        have : T - (run2 T r p (k + 1 + 1)).totalSupply =
            (T - 1570000000) * (1 - r / 100) ^ (k / p + 1) := hH'
        rw [this]

theorem pushed2_mcToSustain (T r : ℚ) (p i : ℕ) :
    (pushed2 T r p i).mcToSustain =
      if (pushed2 T r p i).yearlyIssuance > 0 then
        (jsDiv INITIAL_USD_VALUE (pushed2 T r p i).yearlyIssuance).map
          (fun q => (pushed2 T r p i).totalSupply * q)
      else some 0 := rfl

theorem pushed2_mcTo90M (T r : ℚ) (p i : ℕ) :
    (pushed2 T r p i).mcTo90M =
      if (pushed2 T r p i).yearlyIssuance > 0 then
        (jsDiv TARGET_USD_EXPENSES (pushed2 T r p i).yearlyIssuance).map
          (fun q => (pushed2 T r p i).totalSupply * q)
      else some 0 := rfl

/-! ## Lemmas about binary64 rounding -/

theorem pow2_eq_zpow (e : ℤ) : pow2 e = (2 : ℚ) ^ e := by
  unfold pow2
  split_ifs with h
  · obtain ⟨n, rfl⟩ := Int.eq_ofNat_of_zero_le h
    simp [zpow_natCast]
  · push_neg at h
    obtain ⟨n, hn⟩ := Int.eq_ofNat_of_zero_le (show 0 ≤ -e by omega)
    have he : e = -(n : ℤ) := by omega
    subst he
    simp [zpow_neg, zpow_natCast]

theorem pow2_pos (e : ℤ) : 0 < pow2 e := by
  rw [pow2_eq_zpow]; positivity

theorem pow2_add (a b : ℤ) : pow2 (a + b) = pow2 a * pow2 b := by
  rw [pow2_eq_zpow, pow2_eq_zpow, pow2_eq_zpow, zpow_add₀ (by norm_num)]

theorem pow2_le_pow2 {a b : ℤ} (h : a ≤ b) : pow2 a ≤ pow2 b := by
  rw [pow2_eq_zpow, pow2_eq_zpow]; exact zpow_le_zpow_right₀ (by norm_num) h

theorem pow2_lt_pow2_iff {a b : ℤ} : pow2 a < pow2 b ↔ a < b := by
  rw [pow2_eq_zpow, pow2_eq_zpow]; exact zpow_lt_zpow_iff_right₀ (by norm_num)

theorem ilog2Aux_spec : ∀ fuel n : ℕ, n ≤ fuel → 1 ≤ n →
    2 ^ ilog2Aux fuel n ≤ n ∧ n < 2 ^ (ilog2Aux fuel n + 1) := by
  intro fuel
  induction fuel with
  | zero => intro n h0 h1; omega
  | succ fuel ih =>
    intro n hn h1
    unfold ilog2Aux
    by_cases h2 : n < 2
    · rw [if_pos h2]; constructor <;> simp <;> omega
    · rw [if_neg h2]
      obtain ⟨ha, hb⟩ := ih (n / 2) (by omega) (by omega)
      constructor
      · rw [pow_succ]; omega
      · rw [pow_succ]; omega

theorem ilog2_spec (n : ℕ) (hn : 1 ≤ n) : 2 ^ ilog2 n ≤ n ∧ n < 2 ^ (ilog2 n + 1) :=
  ilog2Aux_spec n n (le_refl n) hn

/-- The binade of a non-zero rational brackets its magnitude. -/
theorem binade_spec (x : ℚ) (hx : x ≠ 0) :
    pow2 (binade x) ≤ |x| ∧ |x| < pow2 (binade x + 1) := by
  have hnum : 1 ≤ x.num.natAbs := by
    have : x.num ≠ 0 := Rat.num_ne_zero.mpr hx
    omega
  have hden : 1 ≤ x.den := x.den_pos
  obtain ⟨ha1, ha2⟩ := ilog2_spec x.num.natAbs hnum
  obtain ⟨hb1, hb2⟩ := ilog2_spec x.den hden
  have habs : |x| = (x.num.natAbs : ℚ) / (x.den : ℚ) := by
    conv_lhs => rw [← Rat.num_div_den x]
    rw [abs_div, Nat.abs_cast, Nat.cast_natAbs, Int.cast_abs]
  have hdpos : (0 : ℚ) < x.den := by exact_mod_cast hden
  have ha1q : (2 : ℚ) ^ ilog2 x.num.natAbs ≤ (x.num.natAbs : ℚ) := by exact_mod_cast ha1
  have ha2q : (x.num.natAbs : ℚ) < (2 : ℚ) ^ (ilog2 x.num.natAbs + 1) := by exact_mod_cast ha2
  have hb1q : (2 : ℚ) ^ ilog2 x.den ≤ (x.den : ℚ) := by exact_mod_cast hb1
  have hb2q : (x.den : ℚ) < (2 : ℚ) ^ (ilog2 x.den + 1) := by exact_mod_cast hb2
  -- bounds on |x| in terms of k
  have hk1 : pow2 ((ilog2 x.num.natAbs : ℤ) - (ilog2 x.den : ℤ) - 1) < |x| := by
    rw [habs, pow2_eq_zpow, lt_div_iff₀ hdpos]
    have h2 : (2 : ℚ) ^ ((ilog2 x.num.natAbs : ℤ) - (ilog2 x.den : ℤ) - 1) *
        (2 : ℚ) ^ ((ilog2 x.den : ℤ) + 1) = (2 : ℚ) ^ (ilog2 x.num.natAbs : ℤ) := by
      rw [← zpow_add₀ (by norm_num)]; congr 1; ring
    have h3 : (2 : ℚ) ^ ((ilog2 x.den : ℤ) + 1) = (2 : ℚ) ^ (ilog2 x.den + 1) := by
      rw [← zpow_natCast]; push_cast; rfl
    have h4 : (2 : ℚ) ^ (ilog2 x.num.natAbs : ℤ) = (2 : ℚ) ^ ilog2 x.num.natAbs :=
      zpow_natCast _ _
    have hpos : (0 : ℚ) < (2 : ℚ) ^ ((ilog2 x.num.natAbs : ℤ) - (ilog2 x.den : ℤ) - 1) := by
      positivity
    calc (2 : ℚ) ^ ((ilog2 x.num.natAbs : ℤ) - (ilog2 x.den : ℤ) - 1) * (x.den : ℚ)
        < (2 : ℚ) ^ ((ilog2 x.num.natAbs : ℤ) - (ilog2 x.den : ℤ) - 1) *
            (2 : ℚ) ^ ((ilog2 x.den : ℤ) + 1) := by
          rw [h3]; exact mul_lt_mul_of_pos_left hb2q hpos
      _ = (2 : ℚ) ^ ilog2 x.num.natAbs := by rw [h2, h4]
      _ ≤ (x.num.natAbs : ℚ) := ha1q
  have hk2 : |x| < pow2 ((ilog2 x.num.natAbs : ℤ) - (ilog2 x.den : ℤ) + 1) := by
    rw [habs, pow2_eq_zpow, div_lt_iff₀ hdpos]
    have h2 : (2 : ℚ) ^ ((ilog2 x.num.natAbs : ℤ) - (ilog2 x.den : ℤ) + 1) *
        (2 : ℚ) ^ (ilog2 x.den : ℤ) = (2 : ℚ) ^ ((ilog2 x.num.natAbs : ℤ) + 1) := by
      rw [← zpow_add₀ (by norm_num)]; congr 1; ring
    have h3 : (2 : ℚ) ^ ((ilog2 x.num.natAbs : ℤ) + 1) = (2 : ℚ) ^ (ilog2 x.num.natAbs + 1) := by
      rw [← zpow_natCast]; push_cast; rfl
    have h4 : (2 : ℚ) ^ (ilog2 x.den : ℤ) = (2 : ℚ) ^ ilog2 x.den := zpow_natCast _ _
    have hpos : (0 : ℚ) < (2 : ℚ) ^ ((ilog2 x.num.natAbs : ℤ) - (ilog2 x.den : ℤ) + 1) := by
      positivity
    calc (x.num.natAbs : ℚ) < (2 : ℚ) ^ (ilog2 x.num.natAbs + 1) := ha2q
      _ = (2 : ℚ) ^ ((ilog2 x.num.natAbs : ℤ) - (ilog2 x.den : ℤ) + 1) *
            (2 : ℚ) ^ (ilog2 x.den : ℤ) := by rw [h2, h3]
      _ ≤ (2 : ℚ) ^ ((ilog2 x.num.natAbs : ℤ) - (ilog2 x.den : ℤ) + 1) * (x.den : ℚ) := by
          rw [h4]; exact mul_le_mul_of_nonneg_left hb1q hpos.le
  unfold binade
  simp only
  split_ifs with h
  · exact ⟨h, hk2⟩
  · push_neg at h
    refine ⟨hk1.le, ?_⟩
    have : (ilog2 x.num.natAbs : ℤ) - (ilog2 x.den : ℤ) - 1 + 1 =
        (ilog2 x.num.natAbs : ℤ) - (ilog2 x.den : ℤ) := by ring
    rw [this]; exact h

theorem floor_le_roundHalfEven (y : ℚ) : ⌊y⌋ ≤ roundHalfEven y := by
  unfold roundHalfEven
  simp only
  split_ifs <;> omega

theorem round64_nonneg (x : ℚ) (hx : 0 ≤ x) : 0 ≤ round64 x := by
  unfold round64
  split_ifs with h0
  · exact le_refl 0
  · simp only
    have hu := pow2_pos (max (binade x) (-1022) - 52)
    have hq : 0 ≤ x / pow2 (max (binade x) (-1022) - 52) := div_nonneg hx hu.le
    have hf : (0 : ℤ) ≤ ⌊x / pow2 (max (binade x) (-1022) - 52)⌋ := Int.floor_nonneg.mpr hq
    have hr := floor_le_roundHalfEven (x / pow2 (max (binade x) (-1022) - 52))
    have : (0 : ℚ) ≤ (roundHalfEven (x / pow2 (max (binade x) (-1022) - 52)) : ℚ) := by
      exact_mod_cast le_trans hf hr
    exact mul_nonneg this hu.le

/-- Rounding to binary64 does not take a value below a normal power of two that it is
at or above. -/
theorem round64_ge_pow2 (x : ℚ) (j : ℤ) (hj : -1022 ≤ j) (hx : pow2 j ≤ x) :
    pow2 j ≤ round64 x := by
  have hxpos : 0 < x := lt_of_lt_of_le (pow2_pos j) hx
  have hx0 : x ≠ 0 := ne_of_gt hxpos
  obtain ⟨hb1, hb2⟩ := binade_spec x hx0
  rw [abs_of_pos hxpos] at hb1 hb2
  have hjb : j ≤ binade x := by
    have : pow2 j < pow2 (binade x + 1) := lt_of_le_of_lt hx hb2
    have := pow2_lt_pow2_iff.mp this
    omega
  have he : max (binade x) (-1022) = binade x := max_eq_left (by omega)
  unfold round64
  rw [if_neg hx0]
  simp only [he]
  have hu := pow2_pos (binade x - 52)
  have h52 : ((2 ^ 52 : ℤ) : ℚ) ≤ x / pow2 (binade x - 52) := by
    rw [le_div_iff₀ hu]
    have h1 : ((2 ^ 52 : ℤ) : ℚ) = pow2 52 := by
      rw [pow2_eq_zpow]; norm_num
    rw [h1, ← pow2_add]
    have : (52 : ℤ) + (binade x - 52) = binade x := by ring
    rw [this]; exact hb1
  have hf : (2 ^ 52 : ℤ) ≤ ⌊x / pow2 (binade x - 52)⌋ := Int.le_floor.mpr h52
  have hr := floor_le_roundHalfEven (x / pow2 (binade x - 52))
  have hR : ((2 ^ 52 : ℤ) : ℚ) ≤ (roundHalfEven (x / pow2 (binade x - 52)) : ℚ) := by
    exact_mod_cast le_trans hf hr
  calc pow2 j ≤ pow2 (binade x) := pow2_le_pow2 hjb
    _ = ((2 ^ 52 : ℤ) : ℚ) * pow2 (binade x - 52) := by
        have h1 : ((2 ^ 52 : ℤ) : ℚ) = pow2 52 := by
          rw [pow2_eq_zpow]; norm_num
        rw [h1, ← pow2_add]; congr 1; ring
    _ ≤ (roundHalfEven (x / pow2 (binade x - 52)) : ℚ) * pow2 (binade x - 52) :=
        mul_le_mul_of_nonneg_right hR hu.le

theorem run1F_zero (s : ℚ) (p : ℕ) : run1F s p 0 = init1F := rfl

theorem run1F_succ (s : ℚ) (p n : ℕ) :
    run1F s p (n + 1) = body1F s p (run1F s p n) (START_YEAR + n) := by
  simp [run1F, List.range_succ, List.foldl_append]

theorem calculateModel1F_eq_run1F (s : ℚ) (p : ℕ) :
    calculateModel1F s p = (run1F s p 28).data := rfl

theorem run1F_data (s : ℚ) (p n : ℕ) :
    (run1F s p n).data = (List.range n).map (pushed1F s p) := by
  induction n with
  | zero => rfl
  | succ n ih => rw [run1F_succ, List.range_succ, List.map_append, ← ih]; rfl

theorem calculateModel1F_getElem? (s : ℚ) (p i : ℕ) (hi : i < 28) :
    (calculateModel1F s p)[i]? = some (pushed1F s p i) := by
  rw [calculateModel1F_eq_run1F, run1F_data]
  simp [List.getElem?_map, List.getElem?_range hi]

/-- For every integer step from `0` to `99`, the factor `1 - reductionStep / 100` computed
in doubles is at least `2^-7`. -/
theorem factor_ge (s : ℕ) (hs : s < 100) : pow2 (-7) ≤ fsub 1 (fdiv (s : ℚ) 100) := by
  have h : ∀ s, s < 100 → pow2 (-7) ≤ fsub 1 (fdiv ((s : ℕ) : ℚ) 100) := by decide!
  exact h s hs

/-- One reduction check in doubles keeps the issuance above the next lower bound. -/
theorem reduce1F_ge (s : ℕ) (hs : s < 100) (p k n : ℕ) (hn : n < 28) (c : ℚ)
    (hc : pow2 (26 - 7 * (n : ℤ)) ≤ c) :
    pow2 (26 - 7 * ((n : ℤ) + 1)) ≤ reduce1F (s : ℚ) p k c := by
  have hf := factor_ge s hs
  have hstep : pow2 (26 - 7 * ((n : ℤ) + 1)) ≤ fmul c (fsub 1 (fdiv (s : ℚ) 100)) := by
    apply round64_ge_pow2 _ _ (by omega)
    have h1 : pow2 (26 - 7 * ((n : ℤ) + 1)) = pow2 (26 - 7 * (n : ℤ)) * pow2 (-7) := by
      rw [← pow2_add]; congr 1; ring
    rw [h1]
    exact mul_le_mul hc hf (pow2_pos _).le (le_trans (pow2_pos _).le hc)
  have hkeep : pow2 (26 - 7 * ((n : ℤ) + 1)) ≤ c :=
    le_trans (pow2_le_pow2 (by omega)) hc
  unfold reduce1F
  simp only
  split_ifs <;> assumption

/-- Loop invariant of `calculateModel1` in doubles, for an integer step from `0` to `99`:
the issuance stays above `2^(26 - 7n)` and the supply stays at or above `1`. -/
theorem run1F_bounds (s : ℕ) (hs : s < 100) (p n : ℕ) (hn : n ≤ 28) :
    pow2 (26 - 7 * (n : ℤ)) ≤ (run1F (s : ℚ) p n).currentIssuance ∧
      pow2 0 ≤ (run1F (s : ℚ) p n).totalSupply := by
  induction n with
  | zero =>
    rw [run1F_zero]
    constructor
    · simp only [init1F, INITIAL_ISSUANCE, pow2_eq_zpow]; norm_num
    · simp only [init1F, INITIAL_SUPPLY, pow2_eq_zpow]; norm_num
  | succ n ih =>
    obtain ⟨h1, h2⟩ := ih (by omega)
    rw [run1F_succ]
    simp only [body1F]
    have hx := reduce1F_ge s hs p (run1F (s : ℚ) p n).yearsSinceStart n (by omega) _ h1
    refine ⟨by push_cast; exact hx, ?_⟩
    apply round64_ge_pow2 _ _ (by norm_num)
    have := (pow2_pos (26 - 7 * ((n : ℤ) + 1))).le
    linarith

/-! ## Claims about the two projections -/

/-- C1: for all parameters, `calculateModel1` and `calculateModel2` each return exactly
`END_YEAR - START_YEAR + 1 = 28` records, and the years of the records, in order, are
`2025, 2026, ..., 2052`: the record at index `i` has year `2025 + i`. -/
theorem calculateModels_length_and_years (s : ℚ) (p₁ : ℕ) (T r : ℚ) (p₂ : ℕ) :
    END_YEAR - START_YEAR + 1 = 28 ∧
    (calculateModel1 s p₁).length = END_YEAR - START_YEAR + 1 ∧
    (calculateModel2 T r p₂).length = END_YEAR - START_YEAR + 1 ∧
    (calculateModel1 s p₁).map YearRecord.year = (List.range 28).map (fun i => 2025 + i) ∧
    (calculateModel2 T r p₂).map YearRecord.year = (List.range 28).map (fun i => 2025 + i) := by
  have hy1 : YearRecord.year ∘ pushed1 s p₁ = fun i => 2025 + i := by
    funext i; exact pushed1_year s p₁ i
  have hy2 : YearRecord.year ∘ pushed2 T r p₂ = fun i => 2025 + i := by
    funext i; exact pushed2_year T r p₂ i
  refine ⟨by decide, ?_, ?_, ?_, ?_⟩
  · rw [calculateModel1_eq_run1, run1_data, List.length_map, List.length_range]; decide
  · rw [calculateModel2_eq_run2, run2_data, List.length_map, List.length_range]; decide
  · rw [calculateModel1_eq_run1, run1_data, List.map_map, hy1]
  · rw [calculateModel2_eq_run2, run2_data, List.map_map, hy2]

/-- C2: for `calculateModel1(s, p)` with `p ≥ 1`, the record at index `i < 28` has
`yearlyIssuance = 120000000` when `i = 0` and
`120000000 * (1 - s/100)^(1 + floor((i - 1) / p))` when `i ≥ 1`; compared with the record
before it, the issuance is multiplied by `1 - s/100` exactly when `i = 1` or `i - 1` is a
(positive) multiple of `p`, and is unchanged at every other index. -/
theorem calculateModel1_issuance_schedule (s : ℚ) (p : ℕ) (hp : 1 ≤ p) (i : ℕ)
    (hi : i < 28) :
    ∃ rec, (calculateModel1 s p)[i]? = some rec ∧
      rec.yearlyIssuance =
        (if i = 0 then 120000000
         else 120000000 * (1 - s / 100) ^ (1 + (i - 1) / p)) ∧
      ∀ j prev, j + 1 = i → (calculateModel1 s p)[j]? = some prev →
        rec.yearlyIssuance =
          if i = 1 ∨ (0 < i - 1 ∧ p ∣ (i - 1)) then prev.yearlyIssuance * (1 - s / 100)
          else prev.yearlyIssuance := by
  have _ := hp
  refine ⟨pushed1 s p i, calculateModel1_getElem? s p i hi, ?_, ?_⟩
  · rw [pushed1_yearlyIssuance_closed, reductions, INITIAL_ISSUANCE]
    split_ifs <;> simp
  · intro j prev hj hprev
    subst hj
    rw [calculateModel1_getElem? s p j (by omega)] at hprev
    cases hprev
    rw [pushed1_yearlyIssuance_succ]
    rcases Nat.eq_zero_or_pos j with h0 | hpos
    · subst h0; simp
    · have h1 : ¬ (j = 0) := by omega
      have h2 : ¬ (j + 1 = 1) := by omega
      simp [h1, h2, hpos]

/-- Instance of C2 at `s = 50`, `p = 2`: the issuance is `60000000` at indices `1` and `2`
and `30000000` at index `3`. -/
theorem calculateModel1_issuance_schedule_witness :
    1 ≤ 2 ∧ 1 < 28 ∧ 2 < 28 ∧ 3 < 28 ∧
    (∃ rec, (calculateModel1 50 2)[1]? = some rec ∧ rec.yearlyIssuance = 60000000) ∧
    (∃ rec, (calculateModel1 50 2)[2]? = some rec ∧ rec.yearlyIssuance = 60000000) ∧
    (∃ rec, (calculateModel1 50 2)[3]? = some rec ∧ rec.yearlyIssuance = 30000000) := by
  refine ⟨by decide, by decide, by decide, by decide, ?_, ?_, ?_⟩
  · obtain ⟨rec, h1, h2, _⟩ :=
      calculateModel1_issuance_schedule 50 2 (by decide) 1 (by decide)
    exact ⟨rec, h1, by rw [h2]; norm_num⟩
  · obtain ⟨rec, h1, h2, _⟩ :=
      calculateModel1_issuance_schedule 50 2 (by decide) 2 (by decide)
    exact ⟨rec, h1, by rw [h2]; norm_num⟩
  · obtain ⟨rec, h1, h2, _⟩ :=
      calculateModel1_issuance_schedule 50 2 (by decide) 3 (by decide)
    exact ⟨rec, h1, by rw [h2]; norm_num⟩

/-- C3: for `calculateModel2(T, r, p)` with `T > 1450000000`, `0 ≤ r < 100` and `p ≥ 1`,
every record's `totalSupply` is at most `T`, and the `totalSupply` of each record is at
least that of the record before it. -/
theorem calculateModel2_supply_monotone_bounded (T r : ℚ) (p : ℕ) (hT : 1450000000 < T)
    (hr0 : 0 ≤ r) (hr : r < 100) (hp : 1 ≤ p) (i : ℕ) (hi : i < 28) :
    ∃ rec, (calculateModel2 T r p)[i]? = some rec ∧
      rec.totalSupply ≤ T ∧
      ∀ j prev, j + 1 = i → (calculateModel2 T r p)[j]? = some prev →
        prev.totalSupply ≤ rec.totalSupply := by
  have _ := hr
  have _ := hp
  have hT' : INITIAL_SUPPLY ≤ T := by rw [INITIAL_SUPPLY]; exact le_of_lt hT
  refine ⟨pushed2 T r p i, calculateModel2_getElem? T r p i hi, ?_, ?_⟩
  · exact (run2_bounds T r p hT' hr0 i).1
  · intro j prev hj hprev
    subst hj
    rw [calculateModel2_getElem? T r p j (by omega)] at hprev
    cases hprev
    obtain ⟨h1, h2⟩ := run2_bounds T r p hT' hr0 j
    rw [pushed2_totalSupply T r p (j + 1), run2_totalSupply_succ, pushed2_yearlyIssuance,
      pushed2_totalSupply]
    have := clamp2_nonneg T (run2 T r p j).totalSupply _
      (recompute2_nonneg T r p (run2 T r p j) (START_YEAR + j) hr0 h1 h2)
    linarith

/-- Instance of C3 at `T = 3140000000`, `r = 25`, `p = 2`, index `5`. -/
theorem calculateModel2_supply_monotone_bounded_witness :
    (1450000000 : ℚ) < 3140000000 ∧ (0 : ℚ) ≤ 25 ∧ (25 : ℚ) < 100 ∧ 1 ≤ 2 ∧ 5 < 28 ∧
    ∃ rec, (calculateModel2 3140000000 25 2)[5]? = some rec ∧
      rec.totalSupply ≤ 3140000000 := by
  refine ⟨by norm_num, by norm_num, by norm_num, by decide, by decide, ?_⟩
  obtain ⟨rec, h1, h2, _⟩ := calculateModel2_supply_monotone_bounded 3140000000 25 2
    (by norm_num) (by norm_num) (by norm_num) (by decide) 5 (by decide)
  exact ⟨rec, h1, h2⟩

/-- C4: for `calculateModel1(s, p)`, `INITIAL_SUPPLY` plus the sum of `yearlyIssuance`
over all returned records equals the last record's `totalSupply` plus the last record's
`yearlyIssuance`. -/
theorem calculateModel1_accumulation (s : ℚ) (p : ℕ) :
    ∃ last, (calculateModel1 s p).getLast? = some last ∧
      INITIAL_SUPPLY + ((calculateModel1 s p).map YearRecord.yearlyIssuance).sum =
        last.totalSupply + last.yearlyIssuance := by
  refine ⟨pushed1 s p 27, ?_, ?_⟩
  · rw [calculateModel1_eq_run1, run1_data, List.range_succ, List.map_append]
    simp
  · rw [calculateModel1_eq_run1, ← run1_totalSupply_eq_sum, run1_totalSupply_succ]

/-- C5: for `calculateModel1(0, p)`, every record has `yearlyIssuance = 120000000` and
`totalSupply = totalSupplyFixed`, and each record after the first has `totalSupply`
exactly `120000000` greater than the record before it. -/
theorem calculateModel1_zero_step (p i : ℕ) (hi : i < 28) :
    ∃ rec, (calculateModel1 0 p)[i]? = some rec ∧
      rec.yearlyIssuance = 120000000 ∧
      rec.totalSupply = rec.totalSupplyFixed ∧
      ∀ j prev, j + 1 = i → (calculateModel1 0 p)[j]? = some prev →
        rec.totalSupply = prev.totalSupply + 120000000 := by
  obtain ⟨h1, h2, h3⟩ := run1_zero_step p i
  refine ⟨pushed1 0 p i, calculateModel1_getElem? 0 p i hi, ?_, ?_, ?_⟩
  · rw [pushed1_yearlyIssuance, reduce1_zero_step, h1]; rfl
  · show (run1 0 p i).totalSupply = (run1 0 p i).totalSupplyFixed
    rw [h2, h3]
  · intro j prev hj hprev
    subst hj
    rw [calculateModel1_getElem? 0 p j (by omega)] at hprev
    cases hprev
    rw [pushed1_totalSupply, pushed1_totalSupply, h2, (run1_zero_step p j).2.1,
      INITIAL_ISSUANCE]
    push_cast; ring

/-- Instance of C5 at `p = 2`, index `1`. -/
theorem calculateModel1_zero_step_witness :
    1 < 28 ∧
    ∃ rec, (calculateModel1 0 2)[1]? = some rec ∧ rec.yearlyIssuance = 120000000 := by
  refine ⟨by decide, ?_⟩
  obtain ⟨rec, h1, h2, _⟩ := calculateModel1_zero_step 2 1 (by decide)
  exact ⟨rec, h1, h2⟩

/-- C6: for every `s` and `p` (in particular `s = 50`, `p = 2`), the first record of
`calculateModel1(s, p)` has `year = 2025`, `yearlyIssuance = 120000000`,
`totalSupply = 1450000000`, `yearlyTreasuryIncome = 18000000` and
`yearlyStakersIncome = 102000000`. -/
theorem calculateModel1_first_record (s : ℚ) (p : ℕ) :
    ∃ rec, (calculateModel1 s p)[0]? = some rec ∧
      rec.year = 2025 ∧ rec.yearlyIssuance = 120000000 ∧ rec.totalSupply = 1450000000 ∧
      rec.yearlyTreasuryIncome = 18000000 ∧ rec.yearlyStakersIncome = 102000000 := by
  refine ⟨pushed1 s p 0, calculateModel1_getElem? s p 0 (by decide), rfl, ?_, rfl, ?_, ?_⟩
  · simp [pushed1, record1, run1_zero, init1, reduce1, INITIAL_ISSUANCE]
  · simp [pushed1, record1, run1_zero, init1, reduce1, INITIAL_ISSUANCE, TREASURY_PERCENT]
    norm_num
  · simp [pushed1, record1, run1_zero, init1, reduce1, INITIAL_ISSUANCE, STAKER_PERCENT]
    norm_num

/-- C7 as stated fails: in `calculateModel2(3140000000, 25, 2)` the 2025 record has
`yearlyIssuance = 120000000` and the 2026 record has `196250000`, which is larger. -/
theorem calculateModel2_issuance_rises_after_2025 :
    ∃ first second, (calculateModel2 3140000000 25 2)[0]? = some first ∧
      (calculateModel2 3140000000 25 2)[1]? = some second ∧
      first.yearlyIssuance = 120000000 ∧ second.yearlyIssuance = 196250000 ∧
      first.yearlyIssuance < second.yearlyIssuance := by
  have h0 : (pushed2 3140000000 25 2 0).yearlyIssuance = 120000000 :=
    pushed2_zero_yearlyIssuance 3140000000 25 2 (by norm_num)
  have h1 : (pushed2 3140000000 25 2 1).yearlyIssuance = 196250000 := by
    obtain ⟨hS, hj, _⟩ := run2_one 3140000000 25 2 (by norm_num)
    rw [pushed2_yearlyIssuance_unclamped 3140000000 25 2 (by norm_num) (by norm_num)
      (by norm_num) (by decide) 0]
    simp only [recompute2, hS, hj, START_YEAR]
    norm_num
  refine ⟨_, _, calculateModel2_getElem? _ _ _ 0 (by decide),
    calculateModel2_getElem? _ _ _ 1 (by decide), h0, h1, ?_⟩
  rw [h0, h1]; norm_num

/-- C7, amended: in `calculateModel2(3140000000, 25, 2)`, from the 2026 record (index 1)
onward no record has a `yearlyIssuance` larger than that of the record before it. -/
theorem calculateModel2_issuance_nonincreasing_from_2026 (i : ℕ) (h1 : 1 ≤ i)
    (hi : i + 1 < 28) :
    ∃ prev next, (calculateModel2 3140000000 25 2)[i]? = some prev ∧
      (calculateModel2 3140000000 25 2)[i + 1]? = some next ∧
      next.yearlyIssuance ≤ prev.yearlyIssuance :=
  ⟨_, _, calculateModel2_getElem? _ _ _ i (by omega),
    calculateModel2_getElem? _ _ _ (i + 1) hi,
    pushed2_yearlyIssuance_antitone 3140000000 25 2 (by norm_num) (by norm_num)
      (by norm_num) (by decide) i h1⟩

/-- Instance of the amended C7 at index `1`: the 2027 issuance is not above that of 2026. -/
theorem calculateModel2_issuance_nonincreasing_from_2026_witness :
    1 ≤ 1 ∧ 1 + 1 < 28 ∧
    ∃ prev next, (calculateModel2 3140000000 25 2)[1]? = some prev ∧
      (calculateModel2 3140000000 25 2)[1 + 1]? = some next ∧
      next.yearlyIssuance ≤ prev.yearlyIssuance :=
  ⟨by decide, by decide,
    calculateModel2_issuance_nonincreasing_from_2026 1 (by decide) (by decide)⟩

/-- C8: the code does not reject a reduction step of `100`. With `reductionStep = 100`
(and period `2`) `updateCalculations` in fixed mode stores `calculateModel1(100, 2)` in
`currentData`; that sequence has 28 records, and its record at index 1 has
`yearlyIssuance = 0` with `mcToSustain` and `mcTo90M` the non-finite results of a
division by zero.  The sibling `calculateModel2` guards the same divisions: the record at
index 1 of `calculateModel2(1570000000, 25, 2)` has zero issuance too, and its
`mcToSustain` and `mcTo90M` are `0`. -/
theorem calculateModel1_step_100_not_rejected :
    (updateCalculations
        { reductionStep := 100, inflationPeriod := 2, targetSupply := none,
          reductionRate := 25, targetPeriod := 2 }
        { currentModel := Model.fixed, currentData := [], errorDisplayed := false,
          targetInvalid := false }).currentData = calculateModel1 100 2 ∧
    (calculateModel1 100 2).length = 28 ∧
    (∃ rec, (calculateModel1 100 2)[1]? = some rec ∧ rec.yearlyIssuance = 0 ∧
      rec.mcToSustain = none ∧ rec.mcTo90M = none) ∧
    ∃ rec, (calculateModel2 1570000000 25 2)[1]? = some rec ∧ rec.yearlyIssuance = 0 ∧
      rec.mcToSustain = some 0 ∧ rec.mcTo90M = some 0 := by
  have h0 : (pushed1 100 2 1).yearlyIssuance = 0 :=
    pushed1_yearlyIssuance_step_100 2 1 (le_refl 1)
  have h2 : (pushed2 1570000000 25 2 1).yearlyIssuance = 0 := by
    obtain ⟨hS, hj, _⟩ := run2_one 1570000000 25 2 (le_refl _)
    rw [pushed2_yearlyIssuance_unclamped 1570000000 25 2 (le_refl _) (by norm_num)
      (by norm_num) (by decide) 0]
    simp only [recompute2, hS, hj, START_YEAR]
    norm_num
  refine ⟨rfl, ?_,
    ⟨pushed1 100 2 1, calculateModel1_getElem? 100 2 1 (by decide), h0, ?_, ?_⟩,
    pushed2 1570000000 25 2 1, calculateModel2_getElem? _ _ _ 1 (by decide), h2, ?_, ?_⟩
  · rw [calculateModel1_eq_run1, run1_data, List.length_map, List.length_range]
  · rw [pushed1_mcToSustain, h0]; simp [jsDiv]
  · rw [pushed1_mcTo90M, h0]; simp [jsDiv]
  · rw [pushed2_mcToSustain, h2]; simp
  · rw [pushed2_mcTo90M, h2]; simp

/-- C9: in the target branch of `updateCalculations`, the request is rejected exactly when
the target supply (the entered billions times `1000000000`) is below `1570000000`, that
is when the entered billions are below `1.57`: then `currentData` is left unchanged, no
projection is stored and the error is displayed; otherwise `currentData` becomes
`calculateModel2(billions * 1000000000, reductionRate, period)`. -/
theorem updateCalculations_target_validation (inp : Inputs) (app : App)
    (hm : app.currentModel = Model.target) :
    (parseBillionsToValue (orZero inp.targetSupply) = orZero inp.targetSupply * 1000000000) ∧
    (orZero inp.targetSupply < 157 / 100 ↔
      parseBillionsToValue (orZero inp.targetSupply) < 1570000000) ∧
    (parseBillionsToValue (orZero inp.targetSupply) < 1570000000 →
      updateCalculations inp app =
        { app with errorDisplayed := true, targetInvalid := true } ∧
      (updateCalculations inp app).currentData = app.currentData) ∧
    (1570000000 ≤ parseBillionsToValue (orZero inp.targetSupply) →
      (updateCalculations inp app).currentData =
        calculateModel2 (orZero inp.targetSupply * 1000000000) inp.reductionRate
          inp.targetPeriod ∧
      (updateCalculations inp app).errorDisplayed = false ∧
      (updateCalculations inp app).targetInvalid = false) := by
  have hval : parseBillionsToValue (orZero inp.targetSupply) =
      orZero inp.targetSupply * 1000000000 := rfl
  have hiff : orZero inp.targetSupply < 157 / 100 ↔
      parseBillionsToValue (orZero inp.targetSupply) < 1570000000 := by
    rw [hval]; constructor <;> intro h <;> linarith
  refine ⟨hval, hiff, ?_, ?_⟩
  · intro h
    have hlt := hiff.mpr h
    simp only [updateCalculations, hm, hlt, if_true, and_self]
  · intro h
    have hge : ¬ (orZero inp.targetSupply < 157 / 100) := fun hlt =>
      absurd (hiff.mp hlt) (not_lt.mpr h)
    simp only [updateCalculations, hm, hge, if_false, hval, and_self]

/-- Instances of C9: an entered `3.14` stores `calculateModel2(3140000000, 25, 2)`, and an
entered `1.5` leaves `currentData` as it was. -/
theorem updateCalculations_target_validation_witness :
    (updateCalculations
        { reductionStep := 50, inflationPeriod := 2, targetSupply := some (314 / 100),
          reductionRate := 25, targetPeriod := 2 }
        { currentModel := Model.target, currentData := [], errorDisplayed := true,
          targetInvalid := true }).currentData = calculateModel2 3140000000 25 2 ∧
    (updateCalculations
        { reductionStep := 50, inflationPeriod := 2, targetSupply := some (15 / 10),
          reductionRate := 25, targetPeriod := 2 }
        { currentModel := Model.target, currentData := calculateModel1 50 2,
          errorDisplayed := false, targetInvalid := false }).currentData =
      calculateModel1 50 2 := by
  constructor
  · have h := (updateCalculations_target_validation
      { reductionStep := 50, inflationPeriod := 2, targetSupply := some (314 / 100),
        reductionRate := 25, targetPeriod := 2 }
      { currentModel := Model.target, currentData := [], errorDisplayed := true,
        targetInvalid := true } rfl).2.2.2
      (by simp only [parseBillionsToValue, orZero]; norm_num)
    rw [h.1]
    simp only [orZero]
    norm_num
  · exact ((updateCalculations_target_validation
      { reductionStep := 50, inflationPeriod := 2, targetSupply := some (15 / 10),
        reductionRate := 25, targetPeriod := 2 }
      { currentModel := Model.target, currentData := calculateModel1 50 2,
        errorDisplayed := false, targetInvalid := false } rfl).2.2.1
      (by simp only [parseBillionsToValue, orZero]; norm_num)).2

/-- C10 fails on an input with two decimal points: `formatNumberInput("1.2.3456")` is
`"1.23456"`, with five digits after the decimal point; the branch that merges the parts
returns before the limit of three decimal places is applied. -/
theorem formatNumberInput_two_points :
    formatNumberInput ['1', '.', '2', '.', '3', '4', '5', '6'] =
      ['1', '.', '2', '3', '4', '5', '6'] ∧
    ((formatNumberInput ['1', '.', '2', '.', '3', '4', '5', '6']).dropWhile
      (fun c => c != '.')).length - 1 = 5 := by
  decide

/-- C11 as stated fails in the code's doubles: in `calculateModel2(3140000000, 99, 1)`
the headroom `targetSupply - totalSupply` is lost to rounding, the record at index 9
(2034) has `totalSupply = 3140000000` and `yearlyIssuance = 0`, while the closed form
gives `1570000000 * (1 - 99/100)^8 * (99/100) / 1 = 15543/100000000000`, which is not
zero in doubles either. -/
theorem calculateModel2F_closed_form_fails :
    (1570000000 : ℚ) ≤ 3140000000 ∧ (0 : ℚ) ≤ 99 ∧ (99 : ℚ) < 100 ∧
    (3140000000 - 1570000000 : ℚ) * (1 - 99 / 100) ^ ((9 - 1) / 1) * (99 / 100) / (1 : ℕ) =
      15543 / 100000000000 ∧
    round64 (15543 / 100000000000) ≠ 0 ∧
    ∃ rec, (calculateModel2F 3140000000 99 1)[9]? = some rec ∧
      rec.totalSupply = 3140000000 ∧ rec.yearlyIssuance = 0 := by
  refine ⟨by norm_num, by norm_num, by norm_num, by norm_num, by decide!, by decide!⟩

/-- C11, amended: for `calculateModel2(T, r, p)` with `T ≥ 1570000000`, `0 ≤ r < 100` and
`p ≥ 1`, the period counter is zero at the top of the iteration with index `i`
(`1 ≤ i < 28`), so that the issuance is recomputed, exactly when `i - 1` is a multiple of
`p` (indices `1, 1 + p, 1 + 2p, ...`); and in exact arithmetic, without the rounding of
doubles, the record has `yearlyIssuance = (T - 1570000000) * (1 - r/100)^q * (r/100) / p`
with `q = floor((i - 1) / p)`, and its headroom `T - totalSupply` is
`(T - 1570000000) * (1 - r/100)^q` less the `(i - 1) mod p` yearly issuances already made
in the period, which at a period start is `(T - 1570000000) * (1 - r/100)^q`. -/
theorem calculateModel2_issuance_closed_form (T r : ℚ) (p : ℕ) (hT : 1570000000 ≤ T)
    (hr0 : 0 ≤ r) (hr : r < 100) (hp : 1 ≤ p) (i : ℕ) (h1 : 1 ≤ i) (hi : i < 28) :
    ∃ rec, (calculateModel2 T r p)[i]? = some rec ∧
      rec.yearlyIssuance =
        (T - 1570000000) * (1 - r / 100) ^ ((i - 1) / p) * (r / 100) / p ∧
      ((run2 T r p i).yearsSincePeriod = 0 ↔ p ∣ (i - 1)) ∧
      T - rec.totalSupply =
        (T - 1570000000) * (1 - r / 100) ^ ((i - 1) / p) *
          (1 - (((i - 1) % p : ℕ) : ℚ) * (r / 100) / p) ∧
      (p ∣ (i - 1) →
        T - rec.totalSupply = (T - 1570000000) * (1 - r / 100) ^ ((i - 1) / p)) := by
  obtain ⟨k, rfl⟩ : ∃ k, i = k + 1 := ⟨i - 1, by omega⟩
  obtain ⟨hj, hH, hx⟩ := run2_period_state T r p hT hr0 (le_of_lt hr) hp k
  simp only [Nat.add_sub_cancel]
  refine ⟨pushed2 T r p (k + 1), calculateModel2_getElem? T r p (k + 1) hi, ?_, ?_, ?_, ?_⟩
  · rw [pushed2_yearlyIssuance_unclamped T r p hT hr0 (le_of_lt hr) hp k, hx]
  · rw [hj, Nat.dvd_iff_mod_eq_zero]
  · rw [pushed2_totalSupply, hH]
  · intro hdvd
    have hm : k % p = 0 := Nat.mod_eq_zero_of_dvd hdvd
    rw [pushed2_totalSupply, hH, hm]
    simp

/-- Instance of the amended C11 at `T = 3140000000`, `r = 25`, `p = 2`, index `3` (the 2028 record,
first year of the second period): the issuance is `147187500`. -/
theorem calculateModel2_issuance_closed_form_witness :
    (1570000000 : ℚ) ≤ 3140000000 ∧ (0 : ℚ) ≤ 25 ∧ (25 : ℚ) < 100 ∧ 1 ≤ 2 ∧ 1 ≤ 3 ∧
    3 < 28 ∧
    ∃ rec, (calculateModel2 3140000000 25 2)[3]? = some rec ∧
      rec.yearlyIssuance = 147187500 := by
  refine ⟨by norm_num, by norm_num, by norm_num, by decide, by decide, by decide, ?_⟩
  obtain ⟨rec, h1, h2, _⟩ := calculateModel2_issuance_closed_form 3140000000 25 2
    (by norm_num) (by norm_num) (by norm_num) (by decide) 3 (by decide) (by decide)
  exact ⟨rec, h1, by rw [h2]; norm_num⟩

/-- C12 as stated fails in the code's doubles: for the step `99.99999999999999` (the
double `100 - 2^-46`, inside `0 ≤ s < 100`) and period `1`, the factor
`1 - s / 100` is `2^-53`, the issuance underflows, and the record at index 21 has
`yearlyIssuance = 0`, the divisor of `mcToSustain` and `mcTo90M`. -/
theorem calculateModel1F_issuance_underflows :
    round64 (9999999999999999 / 100000000000000) = 7036874417766399 / 70368744177664 ∧
    (0 : ℚ) ≤ 7036874417766399 / 70368744177664 ∧
    (7036874417766399 / 70368744177664 : ℚ) < 100 ∧
    fsub 1 (fdiv (7036874417766399 / 70368744177664) 100) = 1 / 9007199254740992 ∧
    ∃ rec, (calculateModel1F (7036874417766399 / 70368744177664) 1)[21]? = some rec ∧
      rec.yearlyIssuance = 0 := by
  decide!

/-- C12, amended: for `calculateModel1(s, p)` with an integer step `0 ≤ s ≤ 99` (what
`parseInt` gives `updateCalculations`) and `p ≥ 1`, in the code's doubles every one of
the 28 records has `yearlyIssuance > 0` and `totalSupply > 0`, and `totalSupply * 0.5`
is not zero, so none of the divisions by `currentIssuance`, `totalSupply` or
`totalSupply * 0.5` is a division by zero. -/
theorem calculateModel1F_divisors_nonzero (s : ℕ) (hs : s ≤ 99) (p : ℕ) (hp : 1 ≤ p)
    (i : ℕ) (hi : i < 28) :
    ∃ rec, (calculateModel1F (s : ℚ) p)[i]? = some rec ∧
      0 < rec.yearlyIssuance ∧ 0 < rec.totalSupply ∧ fmul rec.totalSupply (1 / 2) ≠ 0 := by
  have _ := hp
  obtain ⟨h1, h2⟩ := run1F_bounds s (by omega) p i (by omega)
  have hx := reduce1F_ge s (by omega) p (run1F (s : ℚ) p i).yearsSinceStart i hi _ h1
  refine ⟨pushed1F (s : ℚ) p i, calculateModel1F_getElem? _ p i hi, ?_, ?_, ?_⟩
  · exact lt_of_lt_of_le (pow2_pos _) hx
  · exact lt_of_lt_of_le (pow2_pos _) h2
  · have h3 : pow2 (-1) ≤ fmul (pushed1F (s : ℚ) p i).totalSupply (1 / 2) := by
      apply round64_ge_pow2 _ _ (by norm_num)
      have h4 : pow2 (-1) = pow2 0 * (1 / 2) := by
        rw [pow2_eq_zpow, pow2_eq_zpow]; norm_num
      rw [h4]
      exact mul_le_mul_of_nonneg_right h2 (by norm_num)
    exact ne_of_gt (lt_of_lt_of_le (pow2_pos _) h3)

/-- Instance of the amended C12 at `s = 99`, `p = 1`, index `27` (the 2052 record). -/
theorem calculateModel1F_divisors_nonzero_witness :
    99 ≤ 99 ∧ 1 ≤ 1 ∧ 27 < 28 ∧
    ∃ rec, (calculateModel1F ((99 : ℕ) : ℚ) 1)[27]? = some rec ∧
      0 < rec.yearlyIssuance ∧ 0 < rec.totalSupply :=
  ⟨le_refl _, le_refl _, by decide,
    (calculateModel1F_divisors_nonzero 99 (le_refl _) 1 (le_refl _) 27 (by decide)).imp
      (fun _ h => ⟨h.1, h.2.1, h.2.2.1⟩)⟩

/-- C13 as stated fails in the code's doubles: in `calculateModel2(1571000000, 100, 6)`
the iteration with index 6 enters the test with `totalSupply = 6588552533333335 / 2^22`
and the issuance `5726623061333333 / 2^35` of the period; their rounded sum is above the
target, so the clamp fires and the record carries the smaller issuance
`699050666665 / 2^22` (`166666.6666662693` instead of `166666.66666666666`). -/
theorem calculateModel2F_clamp_fires :
    (1570000000 : ℚ) ≤ 1571000000 ∧ (0 : ℚ) ≤ 100 ∧ (100 : ℚ) ≤ 100 ∧
    (run2F 1571000000 100 6 6).totalSupply = 6588552533333335 / 4194304 ∧
    recompute2F 1571000000 100 6 (run2F 1571000000 100 6 6) (START_YEAR + 6) =
      5726623061333333 / 34359738368 ∧
    fadd (6588552533333335 / 4194304) (5726623061333333 / 34359738368) > 1571000000 ∧
    overshoot2F 1571000000 (run2F 1571000000 100 6 6).totalSupply
      (recompute2F 1571000000 100 6 (run2F 1571000000 100 6 6) (START_YEAR + 6)) = true ∧
    ∃ rec, (calculateModel2F 1571000000 100 6)[6]? = some rec ∧
      rec.yearlyIssuance = 699050666665 / 4194304 ∧
      rec.yearlyIssuance <
        recompute2F 1571000000 100 6 (run2F 1571000000 100 6 6) (START_YEAR + 6) := by
  refine ⟨by norm_num, by norm_num, by norm_num, by decide!, by decide!, by decide!,
    by decide!, by decide!⟩

/-- C13, amended: for `calculateModel2(T, r, p)` with `T ≥ 1570000000`, `0 ≤ r ≤ 100` and
`p ≥ 1`, in exact arithmetic, without the rounding of doubles, the overshoot clamp never
fires: in each of the 28 iterations the supply at the top of the iteration plus the
issuance entering the test is at most the target, so the test
`totalSupply + currentYearlyIssuance > targetSupply` is false, the clamp returns the
issuance unchanged, and the record carries that issuance. -/
theorem calculateModel2_clamp_never_fires (T r : ℚ) (p : ℕ) (hT : 1570000000 ≤ T)
    (hr0 : 0 ≤ r) (hr1 : r ≤ 100) (hp : 1 ≤ p) (i : ℕ) (hi : i < 28) :
    (run2 T r p i).totalSupply + recompute2 T r p (run2 T r p i) (START_YEAR + i) ≤ T ∧
    ¬ ((run2 T r p i).totalSupply + recompute2 T r p (run2 T r p i) (START_YEAR + i) > T) ∧
    clamp2 T (run2 T r p i).totalSupply (recompute2 T r p (run2 T r p i) (START_YEAR + i)) =
      recompute2 T r p (run2 T r p i) (START_YEAR + i) ∧
    ∃ rec, (calculateModel2 T r p)[i]? = some rec ∧
      rec.totalSupply = (run2 T r p i).totalSupply ∧
      rec.yearlyIssuance = recompute2 T r p (run2 T r p i) (START_YEAR + i) := by
  have hle : (run2 T r p i).totalSupply +
      recompute2 T r p (run2 T r p i) (START_YEAR + i) ≤ T := by
    rcases Nat.eq_zero_or_pos i with h0 | hpos
    · subst h0; exact (run2_zero_no_overshoot T r p hT).1
    · obtain ⟨n, rfl⟩ : ∃ n, i = n + 1 := ⟨i - 1, by omega⟩
      exact run2_succ_no_overshoot T r p hT hr0 hr1 hp n
  have hcl : clamp2 T (run2 T r p i).totalSupply
      (recompute2 T r p (run2 T r p i) (START_YEAR + i)) =
      recompute2 T r p (run2 T r p i) (START_YEAR + i) := by
    unfold clamp2; rw [if_neg (not_lt.mpr hle)]
  refine ⟨hle, not_lt.mpr hle, hcl, pushed2 T r p i, calculateModel2_getElem? T r p i hi,
    rfl, ?_⟩
  rw [pushed2_yearlyIssuance, hcl]

/-- Instance of the amended C13 at `T = 1570000000` (the minimum), `r = 100`, `p = 1`, index `1`. -/
theorem calculateModel2_clamp_never_fires_witness :
    (1570000000 : ℚ) ≤ 1570000000 ∧ (0 : ℚ) ≤ 100 ∧ (100 : ℚ) ≤ 100 ∧ 1 ≤ 1 ∧ 1 < 28 ∧
    clamp2 1570000000 (run2 1570000000 100 1 1).totalSupply
        (recompute2 1570000000 100 1 (run2 1570000000 100 1 1) (START_YEAR + 1)) =
      recompute2 1570000000 100 1 (run2 1570000000 100 1 1) (START_YEAR + 1) :=
  ⟨le_refl _, by norm_num, le_refl _, le_refl _, by decide,
    (calculateModel2_clamp_never_fires 1570000000 100 1 (le_refl _) (by norm_num)
      (le_refl _) (le_refl _) 1 (by decide)).2.2.1⟩

end Calculator
